import Mathlib

/-!
Verification of the grid substrate and the search algorithms of the
aoc24-rust repository against its natural-language specification.

The Rust sources are shallowly embedded: pure functions become Lean
functions, in-place mutation becomes explicit state passing, fallible
operations (panics, unwraps) return Option, and unbounded recursion is
driven by an explicit fuel argument.  Machine integers are modelled as
Nat, with an explicit reduction modulo 2 ^ 64 exactly where u64
wrap-around can influence a result (the subtraction in the backward
traversal of day 16).
-/

namespace AoC

/-! ## Vector arithmetic (src/etc/grid.rs)

`Position` is the pair of usize coordinates `(line, column)`;
`Point` is the pair of isize deltas `(delta_line, delta_column)`.
-/

abbrev Position : Type := Nat × Nat

abbrev Point : Type := Int × Int

/-- Embedding of `Position::add`: checked signed addition on both
coordinates, `none` when either coordinate would go negative
(`usize::checked_add_signed`; overflow above `usize::MAX` is not
modelled, coordinates are unbounded naturals). -/
def Position.add (p : Position) (delta : Point) : Option Position :=
  if 0 ≤ (p.1 : Int) + delta.1 ∧ 0 ≤ (p.2 : Int) + delta.2 then
    some (((p.1 : Int) + delta.1).toNat, ((p.2 : Int) + delta.2).toNat)
  else
    none

/-- Embedding of `Point::NORTH`. -/
def Point.north : Point := (-1, 0)

/-- Embedding of `Point::EAST`. -/
def Point.east : Point := (0, 1)

/-- Embedding of `Point::SOUTH`. -/
def Point.south : Point := (1, 0)

/-- Embedding of `Point::WEST`. -/
def Point.west : Point := (0, -1)

/-- Embedding of `Point::rotate_90_clockwise`: `(dr, dc)` becomes `(dc, -dr)`. -/
def Point.rotate_90_clockwise (p : Point) : Point := (p.2, -p.1)

/-- Embedding of `Point::rotate_90_counterclockwise`: `(dr, dc)` becomes `(-dc, dr)`. -/
def Point.rotate_90_counterclockwise (p : Point) : Point := (-p.2, p.1)

/-- Embedding of `Point::rotate_180`: negates both components. -/
def Point.rotate_180 (p : Point) : Point := (-p.1, -p.2)

/-- Embedding of `impl Add for Point`: componentwise addition. -/
def Point.addPt (p q : Point) : Point := (p.1 + q.1, p.2 + q.2)

/-- Embedding of `impl Mul for Point`: scales both components
(`Point(rhs * self.0, rhs * self.1)`). -/
def Point.mulScalar (p : Point) (rhs : Int) : Point := (rhs * p.1, rhs * p.2)

/-! ## The grid container (src/etc/grid.rs) -/

/-- Embedding of `Grid<T>`: `lines` rows, `columns` columns, flat
row-major item storage. -/
structure Grid (α : Type) where
  lines : Nat
  columns : Nat
  items : List α
deriving DecidableEq, Repr

/-- Intended shape invariant of a grid (spec section 3): the flat storage
holds exactly `lines * columns` items. -/
def Grid.Wellformed {α : Type} (g : Grid α) : Prop :=
  g.items.length = g.lines * g.columns

instance {α : Type} (g : Grid α) : Decidable g.Wellformed := by
  unfold Grid.Wellformed
  infer_instance

/-- Rust `u8::is_ascii_whitespace`, the separator set of
`str::split_ascii_whitespace`: space, tab, newline, form feed, carriage
return. -/
def isAsciiWhitespace (c : Char) : Bool :=
  c = ' ' || c = '\t' || c = '\n' || c = Char.ofNat 12 || c = '\x0d'

/-- Splitting of a character list on ascii whitespace, dropping empty
words, as `str::split_ascii_whitespace` does. -/
def splitAsciiWhitespace (l : List Char) : List (List Char) :=
  match l with
  | [] => []
  | c :: rest =>
    let tail := splitAsciiWhitespace rest
    if isAsciiWhitespace c then
      tail
    else
      match rest with
      | [] => [[c]]
      | d :: _ =>
        if isAsciiWhitespace d then
          [c] :: tail
        else
          match tail with
          | [] => [[c]]
          | w :: ws => (c :: w) :: ws

/-- Embedding of `Grid::new`: splits the input on ascii whitespace,
takes the height from the number of rows, the width from the FIRST row
only, and concatenates the characters of every row; `none` models the
`unwrap` panic when the input holds no row at all.  No width-consistency
check is performed. -/
def Grid.new (input : List Char) : Option (Grid Char) :=
  let rows := splitAsciiWhitespace input
  match rows.head? with
  | none => none
  | some first =>
    some { lines := rows.length, columns := first.length, items := rows.flatten }

/-- Embedding of `Grid::valid_position`. -/
def Grid.valid_position {α : Type} (g : Grid α) (pos : Position) : Bool :=
  pos.1 < g.lines && pos.2 < g.columns

/-- Embedding of `Grid::valid_index`. -/
def Grid.valid_index {α : Type} (g : Grid α) (index : Nat) : Bool :=
  index < g.items.length

/-- Embedding of `Grid::size`. -/
def Grid.size {α : Type} (g : Grid α) : Nat := g.lines * g.columns

/-- Embedding of `Grid::unchecked_position`: row-major index to
position, `(index / columns, index % columns)`.  In Rust a zero column
count panics on division by zero; Lean natural division by zero yields
zero instead, so theorems about this function assume `0 < columns`. -/
def Grid.unchecked_position {α : Type} (g : Grid α) (index : Nat) : Position :=
  (index / g.columns, index % g.columns)

/-- Embedding of `Grid::unchecked_index`: `columns * line + column`,
with no range check. -/
def Grid.unchecked_index {α : Type} (g : Grid α) (pos : Position) : Nat :=
  g.columns * pos.1 + pos.2

/-- Embedding of `Grid::checked_index`. -/
def Grid.checked_index {α : Type} (g : Grid α) (pos : Position) : Option Nat :=
  if g.valid_position pos then some (g.unchecked_index pos) else none

/-- Embedding of `Grid::get`: bounds-checked read.  The inner
`items.get(index).unwrap()` can only panic on a grid violating the shape
invariant; that panic is conflated with the `none` of the bounds check. -/
def Grid.get {α : Type} (g : Grid α) (pos : Position) : Option α :=
  (g.checked_index pos).bind (fun index => g.items.get? index)

/-- Embedding of `Grid::unchecked_get`: reads the backing storage at the
unchecked flat index; `none` models the `unwrap` panic when that flat
index falls outside the storage. -/
def Grid.unchecked_get {α : Type} (g : Grid α) (pos : Position) : Option α :=
  g.items.get? (g.unchecked_index pos)

/-- Embedding of `Grid::step`: vector addition filtered through
`valid_position`. -/
def Grid.step {α : Type} (g : Grid α) (origin : Position) (delta : Point) :
    Option Position :=
  (origin.add delta).filter (fun pos => g.valid_position pos)

/-! ## Pattern extraction (src/etc/grid.rs) -/

/-- Embedding of one iteration of the `step_extract` loop body: position
`origin + step * i`, then a bounds-checked read. -/
def Grid.stepExtractCell {α : Type} (g : Grid α) (origin : Position) (step : Point)
    (i : Nat) : Option α :=
  (origin.add (step.mulScalar (i : Int))).bind (fun pos => g.get pos)

/-- Embedding of the early-return collection loop shared by
`step_extract` and `deltas_extract`: apply `f` to every element in
order, returning all results, or `none` the instant one application
fails. -/
def optionCollect {α β : Type} (f : β → Option α) : List β → Option (List α)
  | [] => some []
  | b :: t =>
    match f b with
    | none => none
    | some x =>
      match optionCollect f t with
      | none => none
      | some xs => some (x :: xs)

/-- Embedding of `Grid::step_extract`: collects the `n` values at
`origin, origin + step, origin + 2 * step, ...`; `none` the instant any
generated coordinate leaves the grid (either by signed-addition
underflow or by the bounds check). -/
def Grid.step_extract {α : Type} (g : Grid α) (origin : Position) (step : Point)
    (n : Nat) : Option (List α) :=
  optionCollect (fun i => g.stepExtractCell origin step i) (List.range n)

/-- Embedding of `Grid::deltas_extract`: same contract as
`step_extract`, with an arbitrary list of offsets. -/
def Grid.deltas_extract {α : Type} (g : Grid α) (origin : Position)
    (deltas : List Point) : Option (List α) :=
  optionCollect (fun d => (origin.add d).bind (fun pos => g.get pos)) deltas

/-! ## Point-typed grid accessors

The day solvers (day06, day12, day16) address the grid with signed
`Point` values throughout.  The `Grid` impl blocks providing these
accessor variants are not part of `src/etc/grid.rs`; they are modelled
from the spec (bounds-checked reads per section 4.2, `step` as vector
addition composed with bounds validation per section 4.3, row-major
index arithmetic per section 3), mirroring the `Position`-typed
accessors that are in the source.
-/

/-- Modelled from the spec: validity of a signed position, `0 <= row <
lines` and `0 <= col < columns` (spec section 3). -/
def Grid.validPt {α : Type} (g : Grid α) (p : Point) : Bool :=
  0 ≤ p.1 && p.1 < (g.lines : Int) && 0 ≤ p.2 && p.2 < (g.columns : Int)

/-- Modelled from the spec: the row-major flat index `columns * row +
col` of a signed position (spec section 3), the `Point` counterpart of
`unchecked_index` and `strict_index`. -/
def Grid.idxPt {α : Type} (g : Grid α) (p : Point) : Nat :=
  g.columns * p.1.toNat + p.2.toNat

/-- Modelled from the spec: bounds-checked read at a signed position
(spec section 4.2), the `Point` counterpart of `get`. -/
def Grid.getPt {α : Type} (g : Grid α) (p : Point) : Option α :=
  if g.validPt p then g.items.get? (g.idxPt p) else none

/-- Modelled from the spec: read of the backing storage at the
row-major index of a signed position with no bounds check, the `Point`
counterpart of `unchecked_get`; `none` models the `unwrap` panic. -/
def Grid.uncheckedGetPt {α : Type} (g : Grid α) (p : Point) : Option α :=
  g.items.get? (g.idxPt p)

/-- Modelled from the spec: `step` at a signed position, vector
addition composed with bounds validation (spec section 4.3). -/
def Grid.stepPt {α : Type} (g : Grid α) (origin delta : Point) : Option Point :=
  if g.validPt (origin.addPt delta) then some (origin.addPt delta) else none

/-- Modelled from the spec: in-place write at a flat index (`set_at`
in the day06 solver); `none` models the panic on an out-of-range
index. -/
def Grid.setAt {α : Type} (g : Grid α) (index : Nat) (v : α) : Option (Grid α) :=
  if index < g.items.length then
    some (Grid.mk g.lines g.columns (g.items.set index v))
  else
    none

/-- Modelled from the spec: bounds-checked in-place write at a signed
position (`*map.get_mut(&pos).unwrap() = v`); `none` models the
`unwrap` panic on an invalid position. -/
def Grid.setPt {α : Type} (g : Grid α) (p : Point) (v : α) : Option (Grid α) :=
  if g.validPt p then
    some (Grid.mk g.lines g.columns (g.items.set (g.idxPt p) v))
  else
    none

/-! ## Day 06: the guard patrol (src/days/day06.rs) -/

/-- Embedding of the day06 `Cell` enumeration. -/
inductive Cell06 where
  | empty
  | obstruction
deriving DecidableEq, Repr

/-- Insertion into a set modelled as a duplicate-free list.  The Rust
sets are `BTreeSet`s; their iteration order is observable only through
the part-2 candidate loop, whose count is proved order-independent, so
arrival order stands in for tree order. -/
def listInsert {β : Type} [DecidableEq β] (x : β) (l : List β) : List β :=
  if x ∈ l then l else x :: l

/-- Formalization of the deterministic patrol transition of spec
section 4.7, acting on a `(position, heading)` state: step forward onto
an empty cell, rotate clockwise in place before an obstruction, and no
successor once the cell ahead is off the grid. -/
def patrolStep (m : Grid Cell06) (s : Point × Point) : Option (Point × Point) :=
  match m.stepPt s.1 s.2 with
  | none => none
  | some ahead =>
    if m.getPt ahead = some Cell06.empty then some (ahead, s.2)
    else some (s.1, s.2.rotate_90_clockwise)

/-- Iteration of the patrol transition: the state after `n` ticks,
`none` once the agent has left the grid. -/
def patrolTrace (m : Grid Cell06) (s : Point × Point) : Nat → Option (Point × Point)
  | 0 => some s
  | Nat.succ n => (patrolTrace m s n).bind (patrolStep m)

/-- Embedding of the loop body of `slow::patrol`, with an explicit fuel
for the unbounded `loop`: check the current `(position, heading)`
against the patrolled set (loop verdict on a hit), record state and
position, then step forward or rotate on an obstruction, returning the
non-loop verdict when the cell ahead is off the grid.  `none` models
both fuel exhaustion and the `unwrap` panic reachable only on a grid
breaking the shape invariant. -/
def patrolSlowAux (m : Grid Cell06) (fuel : Nat) (patrolled : List (Point × Point))
    (locations : List Point) (guard dir : Point) : Option (List Point × Bool) :=
  match fuel with
  | 0 => none
  | Nat.succ fuel =>
    if (guard, dir) ∈ patrolled then some (locations, true)
    else
      match m.stepPt guard dir with
      | some ahead =>
        match m.getPt ahead with
        | some Cell06.empty =>
          patrolSlowAux m fuel (listInsert (guard, dir) patrolled)
            (listInsert guard locations) ahead dir
        | some Cell06.obstruction =>
          patrolSlowAux m fuel (listInsert (guard, dir) patrolled)
            (listInsert guard locations) guard (dir.rotate_90_clockwise)
        | none => none
      | none => some (listInsert guard locations, false)

/-- Embedding of `slow::patrol`, started as the source does facing
north, with the fuel at the spec's tick bound `4 * lines * columns`
plus the final returning check. -/
def patrolSlow (m : Grid Cell06) (guard : Point) : Option (List Point × Bool) :=
  patrolSlowAux m (4 * m.size + 1) [] [] guard Point.north

/-- Embedding of the day06 `direction_id` mapping; `none` models the
`unreachable` panic on a non-cardinal heading. -/
def directionId (d : Point) : Option Nat :=
  if d = Point.north then some 0
  else if d = Point.east then some 1
  else if d = Point.south then some 2
  else if d = Point.west then some 3
  else none

/-- Embedding of the loop body of `fast::patrol`: the patrolled set is
a vector of four direction flags per cell, indexed by the row-major
cell index; otherwise the control flow of `slow::patrol`.  `none`
models fuel exhaustion and the panics (`direction_id` unreachable,
vector index out of range). -/
def patrolFastAux (m : Grid Cell06) (fuel : Nat) (patr : List (List Bool))
    (guard dir : Point) : Option (List (List Bool) × Bool) :=
  match fuel with
  | 0 => none
  | Nat.succ fuel =>
    match directionId dir with
    | none => none
    | some did =>
      match patr.get? (m.idxPt guard) with
      | none => none
      | some loc =>
        match loc.get? did with
        | none => none
        | some flag =>
          if flag then some (patr, true)
          else
            match m.stepPt guard dir with
            | some ahead =>
              match m.uncheckedGetPt ahead with
              | some Cell06.empty =>
                patrolFastAux m fuel (patr.set (m.idxPt guard) (loc.set did true)) ahead dir
              | some Cell06.obstruction =>
                patrolFastAux m fuel (patr.set (m.idxPt guard) (loc.set did true)) guard
                  (dir.rotate_90_clockwise)
              | none => none
            | none => some (patr.set (m.idxPt guard) (loc.set did true), false)

/-- Embedding of `fast::patrol`, starting from the all-false flag
vector of length `map.size()`, facing north, with the same fuel bound
as the slow patrol. -/
def patrolFast (m : Grid Cell06) (guard : Point) : Option (List (List Bool) × Bool) :=
  patrolFastAux m (4 * m.size + 1) (List.replicate m.size (List.replicate 4 false))
    guard Point.north

/-- Embedding of `slow::solve_part1` from the prepared map on: the
number of distinct positions patrolled. -/
def slowPart1 (m : Grid Cell06) (guard : Point) : Option Nat :=
  (patrolSlow m guard).map (fun r => r.1.length)

/-- Embedding of `fast::solve_part1` from the prepared map on: the
number of cells whose flag vector holds at least one direction. -/
def fastPart1 (m : Grid Cell06) (guard : Point) : Option Nat :=
  (patrolFast m guard).map (fun r => (r.1.filter (fun loc => loc.any id)).length)

/-- Embedding of the candidate loop of `slow::solve_part2`: for each
candidate, place an obstruction, rerun the patrol, restore the cell to
empty, and count the loop verdicts. -/
def part2FoldSlow (m : Grid Cell06) (guard : Point) : List Point → Option Nat
  | [] => some 0
  | p :: t =>
    match m.setPt p Cell06.obstruction with
    | none => none
    | some m1 =>
      match patrolSlow m1 guard with
      | none => none
      | some r =>
        match m1.setPt p Cell06.empty with
        | none => none
        | some m2 =>
          match part2FoldSlow m2 guard t with
          | none => none
          | some n => some (if r.2 then n + 1 else n)

/-- Embedding of `slow::solve_part2` from the prepared map on: the
patrolled positions minus the start are tried one by one as
obstructions. -/
def slowPart2 (m : Grid Cell06) (guard : Point) : Option Nat :=
  (patrolSlow m guard).bind
    (fun r => part2FoldSlow m guard (r.1.filter (fun p => p ≠ guard)))

/-- Embedding of the candidate loop of `fast::solve_part2`, indexing
cells by flat index and writing through `set_at`. -/
def part2FoldFast (m : Grid Cell06) (guard : Point) : List Nat → Option Nat
  | [] => some 0
  | i :: t =>
    match m.setAt i Cell06.obstruction with
    | none => none
    | some m1 =>
      match patrolFast m1 guard with
      | none => none
      | some r =>
        match m1.setAt i Cell06.empty with
        | none => none
        | some m2 =>
          match part2FoldFast m2 guard t with
          | none => none
          | some n => some (if r.2 then n + 1 else n)

/-- Embedding of the candidate selection of `fast::solve_part2`:
the enumeration of the flag rows is modelled by indexing over
`0..len`, keeping the indices that differ from the start index and
whose row holds at least one direction flag. -/
def fastCandidates (tbl : List (List Bool)) (guardIndex : Nat) : List Nat :=
  (List.range tbl.length).filter
    (fun index => decide (index ≠ guardIndex) && (tbl.getD index []).any id)

/-- Embedding of `fast::solve_part2` from the prepared map on;
`strict_index` on the start point is the leading `none` source. -/
def fastPart2 (m : Grid Cell06) (guard : Point) : Option Nat :=
  (if m.validPt guard then some (m.idxPt guard) else none).bind
    (fun guardIndex =>
      (patrolFast m guard).bind
        (fun r => part2FoldFast m guard (fastCandidates r.1 guardIndex)))

/-- Finset of the four cardinal headings. -/
def dirs4 : Finset Point :=
  {Point.north, Point.east, Point.south, Point.west}

/-! ## Day 16: turn-weighted shortest path (src/days/day16.rs) -/

/-- Embedding of the day16 `Cell` enumeration; the reached payload is a
u64 cost. -/
inductive Cell16 where
  | wall
  | unreached
  | reached (points : Nat)
deriving DecidableEq, Repr

/-- Wrapping u64 addition. -/
def u64add (a b : Nat) : Nat := (a + b) % (2 ^ 64)

/-- Wrapping u64 subtraction (release-mode semantics of `a - b` for
u64 values `a, b < 2 ^ 64`). -/
def u64sub (a b : Nat) : Nat := (a + 2 ^ 64 - b) % (2 ^ 64)

/-- Unconditional write through an already-validated mutable borrow
(`*c = ...` after a successful `get_mut`); leaves the grid unchanged on
an invalid position, a case the embedding never reaches. -/
def setPtD {α : Type} (g : Grid α) (p : Point) (v : α) : Grid α :=
  if g.validPt p then Grid.mk g.lines g.columns (g.items.set (g.idxPt p) v) else g

/-- Embedding of the day16 forward `dfs`, with an explicit recursion
fuel: record the accumulated cost when it beats the recorded one, stop
at walls, out-of-grid cells, already-cheaper cells and the end cell,
and otherwise explore straight (cost 1), clockwise and
counter-clockwise (cost 1001) turns in that order, threading the
mutated map. -/
def dfs16 (endp : Point) : Nat → Grid Cell16 → Nat → Point → Point → Option (Grid Cell16)
  | 0, _, _, _, _ => none
  | Nat.succ fuel, m, acc, cur, dir =>
    match m.getPt cur with
    | none => some m
    | some Cell16.wall => some m
    | some (Cell16.reached p) =>
      if p ≤ acc then some m
      else
        if cur = endp then some (setPtD m cur (Cell16.reached acc))
        else
          (dfs16 endp fuel (setPtD m cur (Cell16.reached acc)) (u64add acc 1)
              (cur.addPt dir) dir).bind (fun m2 =>
            (dfs16 endp fuel m2 (u64add acc 1001)
                (cur.addPt dir.rotate_90_clockwise) dir.rotate_90_clockwise).bind (fun m3 =>
              dfs16 endp fuel m3 (u64add acc 1001)
                (cur.addPt dir.rotate_90_counterclockwise) dir.rotate_90_counterclockwise))
    | some Cell16.unreached =>
      if cur = endp then some (setPtD m cur (Cell16.reached acc))
      else
        (dfs16 endp fuel (setPtD m cur (Cell16.reached acc)) (u64add acc 1)
            (cur.addPt dir) dir).bind (fun m2 =>
          (dfs16 endp fuel m2 (u64add acc 1001)
              (cur.addPt dir.rotate_90_clockwise) dir.rotate_90_clockwise).bind (fun m3 =>
            dfs16 endp fuel m3 (u64add acc 1001)
              (cur.addPt dir.rotate_90_counterclockwise) dir.rotate_90_counterclockwise))

/-- Recursion depth available to the day16 searches; ample for the
fixtures while keeping the recursion structural. -/
def fuel16 : Nat := 1048576

/-- Embedding of `compute_least_distances`: run the forward search
from the start facing east, then read the minimum cost recorded at the
end cell; `none` models the `unreachable` panic when no path was
found (and, in the embedding only, exhausted fuel). -/
def computeLeastDistances (m : Grid Cell16) (start endp : Point) :
    Option (Grid Cell16 × Nat) :=
  (dfs16 endp fuel16 m 0 start Point.east).bind (fun m2 =>
    match m2.getPt endp with
    | some (Cell16.reached points) => some (m2, points)
    | _ => none)

/-- Inverse transitions tried by the backward traversal: arrive via a
straight move (cost 1), via a clockwise turn, or via a
counter-clockwise turn (cost 1001 each). -/
def transitions16 (d : Point) : List (Point × Nat) :=
  (d, 1) :: (d.rotate_90_clockwise, 1001) :: (d.rotate_90_counterclockwise, 1001) :: []

/-- Embedding of the loop of `backward_dfs` over the remaining inverse
transitions, with one fuel unit per step: a predecessor cell holding a
recorded forward cost of at most `remaining - cost` (u64 subtraction)
is accepted: it is marked as on a best path and, unless it is the
start, recursively expanded with the reduced budget; every other
predecessor is skipped.  `none` models exhausted fuel only. -/
def backwardAux (m : Grid Cell16) (start : Point) :
    Nat → Finset Point → Nat → Point → List (Point × Nat) → Option (Finset Point)
  | 0, _, _, _, _ => none
  | Nat.succ _, marked, _, _, [] => some marked
  | Nat.succ fuel, marked, remaining, cur, (t, c) :: rest =>
      match m.getPt (cur.addPt t) with
      | some (Cell16.reached f) =>
        if f ≤ u64sub remaining c then
          match (if cur.addPt t = start
              then some (insert (cur.addPt t) marked)
              else backwardAux m start fuel (insert (cur.addPt t) marked)
                (u64sub remaining c) (cur.addPt t) (transitions16 t)) with
          | none => none
          | some marked2 => backwardAux m start fuel marked2 remaining cur rest
        else backwardAux m start fuel marked remaining cur rest
      | _ => backwardAux m start fuel marked remaining cur rest

/-- Embedding of `backward_dfs`: mark the current cell as on a best
path, stop at the start, and otherwise run the loop over the three
inverse transitions. -/
def backwardDfs (m : Grid Cell16) (start : Point) (fuel : Nat)
    (marked : Finset Point) (remaining : Nat) (cur dir : Point) :
    Option (Finset Point) :=
  if cur = start then some (insert cur marked)
  else backwardAux m start fuel (insert cur marked) remaining cur (transitions16 dir)

/-- Transition loop of the claim-faithful variant: identical to
`backwardAux` except that a predecessor is accepted only when its
forward-recorded cost EQUALS `remaining - cost` exactly, as the claim
words it. -/
def backwardAuxSpecEq (m : Grid Cell16) (start : Point) :
    Nat → Finset Point → Nat → Point → List (Point × Nat) → Option (Finset Point)
  | 0, _, _, _, _ => none
  | Nat.succ _, marked, _, _, [] => some marked
  | Nat.succ fuel, marked, remaining, cur, (t, c) :: rest =>
      match m.getPt (cur.addPt t) with
      | some (Cell16.reached f) =>
        if f = u64sub remaining c then
          match (if cur.addPt t = start
              then some (insert (cur.addPt t) marked)
              else backwardAuxSpecEq m start fuel (insert (cur.addPt t) marked)
                (u64sub remaining c) (cur.addPt t) (transitions16 t)) with
          | none => none
          | some marked2 => backwardAuxSpecEq m start fuel marked2 remaining cur rest
        else backwardAuxSpecEq m start fuel marked remaining cur rest
      | _ => backwardAuxSpecEq m start fuel marked remaining cur rest

/-- Definition following the claim's words, for comparison with the
source. -/
def backwardDfsSpecEq (m : Grid Cell16) (start : Point) (fuel : Nat)
    (marked : Finset Point) (remaining : Nat) (cur dir : Point) :
    Option (Finset Point) :=
  if cur = start then some (insert cur marked)
  else backwardAuxSpecEq m start fuel (insert cur marked) remaining cur (transitions16 dir)

/-- Modelled from the spec: `position` used with a Point result (first
cell in row-major order satisfying a predicate, spec section 4.2). -/
def Grid.positionPt {α : Type} (g : Grid α) (pred : α → Bool) : Option Point :=
  (g.items.findIdx? pred).map
    (fun i => (((i / g.columns : Nat) : Int), ((i % g.columns : Nat) : Int)))

/-- Embedding of the day16 cell parser of `prepare`; `none` models the
`unreachable` panic on a wrong character. -/
def parse16 (c : Char) : Option Cell16 :=
  if c = '#' then some Cell16.wall
  else if c = '.' ∨ c = 'E' ∨ c = 'S' then some Cell16.unreached
  else none

/-- Embedding of the day16 `prepare`: build the character grid, locate
the start and end markers (`expect` panics become `none`), and map
every character to a semantic cell. -/
def prepare16 (input : List Char) : Option (Grid Cell16 × Point × Point) :=
  (Grid.new input).bind (fun g =>
    (g.positionPt (fun c => c = 'S')).bind (fun start =>
      (g.positionPt (fun c => c = 'E')).bind (fun endp =>
        (optionCollect parse16 g.items).map (fun cells =>
          (Grid.mk g.lines g.columns cells, start, endp)))))

/-- Embedding of the day16 `solve_part1`. -/
def solve16Part1 (input : List Char) : Option Nat :=
  (prepare16 input).bind (fun x =>
    (computeLeastDistances x.1 x.2.1 x.2.2).map (fun r => r.2))

/-- Embedding of the day16 `solve_part2`: forward pass, then one
backward traversal from the end cell for each of the four incoming
directions, accumulating the on-a-best-path set, whose size is the
answer. -/
def solve16Part2 (input : List Char) : Option Nat :=
  (prepare16 input).bind (fun x =>
    (computeLeastDistances x.1 x.2.1 x.2.2).bind (fun r =>
      ((Point.north :: Point.east :: Point.south :: Point.west :: []).foldlM
        (fun marked dir => backwardDfs r.1 x.2.1 fuel16 marked r.2 x.2.2 dir)
        (∅ : Finset Point)).map (fun s => s.card)))

/-- Part-2 pipeline run with the claim-faithful equality-acceptance
backward traversal instead of the source's. -/
def solve16Part2SpecEq (input : List Char) : Option Nat :=
  (prepare16 input).bind (fun x =>
    (computeLeastDistances x.1 x.2.1 x.2.2).bind (fun r =>
      ((Point.north :: Point.east :: Point.south :: Point.west :: []).foldlM
        (fun marked dir => backwardDfsSpecEq r.1 x.2.1 fuel16 marked r.2 x.2.2 dir)
        (∅ : Finset Point)).map (fun s => s.card)))

set_option maxRecDepth 1000000 in
/-- The first day16 fixture parsed by `prepare16` (its semantic cell
grid; start `(13, 1)`, end `(1, 13)`). -/
def maze16a : Grid Cell16 :=
  Grid.mk 15 15 ((Cell16.wall) :: (Cell16.wall) :: (Cell16.wall) :: (Cell16.wall) ::
    (Cell16.wall) :: (Cell16.wall) :: (Cell16.wall) :: (Cell16.wall) :: (Cell16.wall) ::
    (Cell16.wall) :: (Cell16.wall) :: (Cell16.wall) :: (Cell16.wall) :: (Cell16.wall) ::
    (Cell16.wall) :: (Cell16.wall) :: (Cell16.unreached) :: (Cell16.unreached) ::
    (Cell16.unreached) :: (Cell16.unreached) :: (Cell16.unreached) :: (Cell16.unreached) ::
    (Cell16.unreached) :: (Cell16.wall) :: (Cell16.unreached) :: (Cell16.unreached) ::
    (Cell16.unreached) :: (Cell16.unreached) :: (Cell16.unreached) :: (Cell16.wall) ::
    (Cell16.wall) :: (Cell16.unreached) :: (Cell16.wall) :: (Cell16.unreached) :: (Cell16.wall) ::
    (Cell16.wall) :: (Cell16.wall) :: (Cell16.unreached) :: (Cell16.wall) :: (Cell16.unreached) ::
    (Cell16.wall) :: (Cell16.wall) :: (Cell16.wall) :: (Cell16.unreached) :: (Cell16.wall) ::
    (Cell16.wall) :: (Cell16.unreached) :: (Cell16.unreached) :: (Cell16.unreached) ::
    (Cell16.unreached) :: (Cell16.unreached) :: (Cell16.wall) :: (Cell16.unreached) ::
    (Cell16.wall) :: (Cell16.unreached) :: (Cell16.unreached) :: (Cell16.unreached) ::
    (Cell16.wall) :: (Cell16.unreached) :: (Cell16.wall) :: (Cell16.wall) :: (Cell16.unreached) ::
    (Cell16.wall) :: (Cell16.wall) :: (Cell16.wall) :: (Cell16.unreached) :: (Cell16.wall) ::
    (Cell16.wall) :: (Cell16.wall) :: (Cell16.wall) :: (Cell16.wall) :: (Cell16.unreached) ::
    (Cell16.wall) :: (Cell16.unreached) :: (Cell16.wall) :: (Cell16.wall) :: (Cell16.unreached) ::
    (Cell16.wall) :: (Cell16.unreached) :: (Cell16.wall) :: (Cell16.unreached) ::
    (Cell16.unreached) :: (Cell16.unreached) :: (Cell16.unreached) :: (Cell16.unreached) ::
    (Cell16.unreached) :: (Cell16.unreached) :: (Cell16.wall) :: (Cell16.unreached) ::
    (Cell16.wall) :: (Cell16.wall) :: (Cell16.unreached) :: (Cell16.wall) :: (Cell16.unreached) ::
    (Cell16.wall) :: (Cell16.wall) :: (Cell16.wall) :: (Cell16.wall) :: (Cell16.wall) ::
    (Cell16.unreached) :: (Cell16.wall) :: (Cell16.wall) :: (Cell16.wall) :: (Cell16.unreached) ::
    (Cell16.wall) :: (Cell16.wall) :: (Cell16.unreached) :: (Cell16.unreached) ::
    (Cell16.unreached) :: (Cell16.unreached) :: (Cell16.unreached) :: (Cell16.unreached) ::
    (Cell16.unreached) :: (Cell16.unreached) :: (Cell16.unreached) :: (Cell16.unreached) ::
    (Cell16.unreached) :: (Cell16.wall) :: (Cell16.unreached) :: (Cell16.wall) :: (Cell16.wall) ::
    (Cell16.wall) :: (Cell16.wall) :: (Cell16.unreached) :: (Cell16.wall) :: (Cell16.unreached) ::
    (Cell16.wall) :: (Cell16.wall) :: (Cell16.wall) :: (Cell16.wall) :: (Cell16.wall) ::
    (Cell16.unreached) :: (Cell16.wall) :: (Cell16.unreached) :: (Cell16.wall) :: (Cell16.wall) ::
    (Cell16.unreached) :: (Cell16.unreached) :: (Cell16.unreached) :: (Cell16.wall) ::
    (Cell16.unreached) :: (Cell16.unreached) :: (Cell16.unreached) :: (Cell16.unreached) ::
    (Cell16.unreached) :: (Cell16.wall) :: (Cell16.unreached) :: (Cell16.wall) ::
    (Cell16.unreached) :: (Cell16.wall) :: (Cell16.wall) :: (Cell16.unreached) :: (Cell16.wall) ::
    (Cell16.unreached) :: (Cell16.wall) :: (Cell16.unreached) :: (Cell16.wall) :: (Cell16.wall) ::
    (Cell16.wall) :: (Cell16.unreached) :: (Cell16.wall) :: (Cell16.unreached) :: (Cell16.wall) ::
    (Cell16.unreached) :: (Cell16.wall) :: (Cell16.wall) :: (Cell16.unreached) ::
    (Cell16.unreached) :: (Cell16.unreached) :: (Cell16.unreached) :: (Cell16.unreached) ::
    (Cell16.wall) :: (Cell16.unreached) :: (Cell16.unreached) :: (Cell16.unreached) ::
    (Cell16.wall) :: (Cell16.unreached) :: (Cell16.wall) :: (Cell16.unreached) :: (Cell16.wall) ::
    (Cell16.wall) :: (Cell16.unreached) :: (Cell16.wall) :: (Cell16.wall) :: (Cell16.wall) ::
    (Cell16.unreached) :: (Cell16.wall) :: (Cell16.unreached) :: (Cell16.wall) ::
    (Cell16.unreached) :: (Cell16.wall) :: (Cell16.unreached) :: (Cell16.wall) ::
    (Cell16.unreached) :: (Cell16.wall) :: (Cell16.wall) :: (Cell16.unreached) ::
    (Cell16.unreached) :: (Cell16.unreached) :: (Cell16.wall) :: (Cell16.unreached) ::
    (Cell16.unreached) :: (Cell16.unreached) :: (Cell16.unreached) :: (Cell16.unreached) ::
    (Cell16.wall) :: (Cell16.unreached) :: (Cell16.unreached) :: (Cell16.unreached) ::
    (Cell16.wall) :: (Cell16.wall) :: (Cell16.wall) :: (Cell16.wall) :: (Cell16.wall) ::
    (Cell16.wall) :: (Cell16.wall) :: (Cell16.wall) :: (Cell16.wall) :: (Cell16.wall) ::
    (Cell16.wall) :: (Cell16.wall) :: (Cell16.wall) :: (Cell16.wall) :: (Cell16.wall) ::
    (Cell16.wall) :: [])

/-- Start cell of the first day16 fixture. -/
def start16a : Point := (13, 1)

/-- End cell of the first day16 fixture. -/
def end16a : Point := (1, 13)

set_option maxRecDepth 1000000 in
/-- Least-distance table the forward search computes on the first
day16 fixture. -/
def ld16a : Grid Cell16 :=
  Grid.mk 15 15 ((Cell16.wall) :: (Cell16.wall) :: (Cell16.wall) :: (Cell16.wall) ::
    (Cell16.wall) :: (Cell16.wall) :: (Cell16.wall) :: (Cell16.wall) :: (Cell16.wall) ::
    (Cell16.wall) :: (Cell16.wall) :: (Cell16.wall) :: (Cell16.wall) :: (Cell16.wall) ::
    (Cell16.wall) :: (Cell16.wall) :: (Cell16.reached 5016) :: (Cell16.reached 6017) ::
    (Cell16.reached 6018) :: (Cell16.reached 6019) :: (Cell16.reached 6020) ::
    (Cell16.reached 6021) :: (Cell16.reached 6022) :: (Cell16.wall) :: (Cell16.reached 9024) ::
    (Cell16.reached 10025) :: (Cell16.reached 10026) :: (Cell16.reached 10027) ::
    (Cell16.reached 7036) :: (Cell16.wall) :: (Cell16.wall) :: (Cell16.reached 5015) ::
    (Cell16.wall) :: (Cell16.reached 7017) :: (Cell16.wall) :: (Cell16.wall) :: (Cell16.wall) ::
    (Cell16.reached 7023) :: (Cell16.wall) :: (Cell16.reached 9023) :: (Cell16.wall) ::
    (Cell16.wall) :: (Cell16.wall) :: (Cell16.reached 7035) :: (Cell16.wall) :: (Cell16.wall) ::
    (Cell16.reached 5014) :: (Cell16.reached 6015) :: (Cell16.reached 6016) ::
    (Cell16.reached 6017) :: (Cell16.reached 6018) :: (Cell16.wall) :: (Cell16.reached 7024) ::
    (Cell16.wall) :: (Cell16.reached 8022) :: (Cell16.reached 8021) :: (Cell16.reached 7020) ::
    (Cell16.wall) :: (Cell16.reached 7034) :: (Cell16.wall) :: (Cell16.wall) ::
    (Cell16.reached 5013) :: (Cell16.wall) :: (Cell16.wall) :: (Cell16.wall) ::
    (Cell16.reached 7019) :: (Cell16.wall) :: (Cell16.wall) :: (Cell16.wall) :: (Cell16.wall) ::
    (Cell16.wall) :: (Cell16.reached 7019) :: (Cell16.wall) :: (Cell16.reached 7033) ::
    (Cell16.wall) :: (Cell16.wall) :: (Cell16.reached 5012) :: (Cell16.wall) ::
    (Cell16.reached 3010) :: (Cell16.wall) :: (Cell16.reached 6020) :: (Cell16.reached 6019) ::
    (Cell16.reached 6018) :: (Cell16.reached 6017) :: (Cell16.reached 5016) ::
    (Cell16.reached 6017) :: (Cell16.reached 6018) :: (Cell16.wall) :: (Cell16.reached 7032) ::
    (Cell16.wall) :: (Cell16.wall) :: (Cell16.reached 5011) :: (Cell16.wall) ::
    (Cell16.reached 3009) :: (Cell16.wall) :: (Cell16.wall) :: (Cell16.wall) :: (Cell16.wall) ::
    (Cell16.wall) :: (Cell16.reached 5015) :: (Cell16.wall) :: (Cell16.wall) :: (Cell16.wall) ::
    (Cell16.reached 7031) :: (Cell16.wall) :: (Cell16.wall) :: (Cell16.reached 4010) ::
    (Cell16.reached 4009) :: (Cell16.reached 3008) :: (Cell16.reached 4009) ::
    (Cell16.reached 3010) :: (Cell16.reached 4011) :: (Cell16.reached 4012) ::
    (Cell16.reached 4013) :: (Cell16.reached 4014) :: (Cell16.reached 4015) ::
    (Cell16.reached 4016) :: (Cell16.wall) :: (Cell16.reached 7030) :: (Cell16.wall) ::
    (Cell16.wall) :: (Cell16.wall) :: (Cell16.wall) :: (Cell16.reached 3007) :: (Cell16.wall) ::
    (Cell16.reached 3009) :: (Cell16.wall) :: (Cell16.wall) :: (Cell16.wall) :: (Cell16.wall) ::
    (Cell16.wall) :: (Cell16.reached 5017) :: (Cell16.wall) :: (Cell16.reached 7029) ::
    (Cell16.wall) :: (Cell16.wall) :: (Cell16.reached 1004) :: (Cell16.reached 2005) ::
    (Cell16.reached 2006) :: (Cell16.wall) :: (Cell16.reached 3008) :: (Cell16.reached 4009) ::
    (Cell16.reached 4010) :: (Cell16.reached 4011) :: (Cell16.reached 4012) :: (Cell16.wall) ::
    (Cell16.reached 5018) :: (Cell16.wall) :: (Cell16.reached 7028) :: (Cell16.wall) ::
    (Cell16.wall) :: (Cell16.reached 1003) :: (Cell16.wall) :: (Cell16.reached 3005) ::
    (Cell16.wall) :: (Cell16.reached 3007) :: (Cell16.wall) :: (Cell16.wall) :: (Cell16.wall) ::
    (Cell16.reached 5013) :: (Cell16.wall) :: (Cell16.reached 5019) :: (Cell16.wall) ::
    (Cell16.reached 7027) :: (Cell16.wall) :: (Cell16.wall) :: (Cell16.reached 1002) ::
    (Cell16.reached 2003) :: (Cell16.reached 2004) :: (Cell16.reached 2005) ::
    (Cell16.reached 2006) :: (Cell16.wall) :: (Cell16.reached 5012) :: (Cell16.reached 6013) ::
    (Cell16.reached 5014) :: (Cell16.wall) :: (Cell16.reached 5020) :: (Cell16.wall) ::
    (Cell16.reached 7026) :: (Cell16.wall) :: (Cell16.wall) :: (Cell16.reached 1001) ::
    (Cell16.wall) :: (Cell16.wall) :: (Cell16.wall) :: (Cell16.reached 3007) :: (Cell16.wall) ::
    (Cell16.reached 5011) :: (Cell16.wall) :: (Cell16.reached 5013) :: (Cell16.wall) ::
    (Cell16.reached 5021) :: (Cell16.wall) :: (Cell16.reached 7025) :: (Cell16.wall) ::
    (Cell16.wall) :: (Cell16.reached 0) :: (Cell16.reached 1) :: (Cell16.reached 2) ::
    (Cell16.wall) :: (Cell16.reached 3008) :: (Cell16.reached 4009) :: (Cell16.reached 4010) ::
    (Cell16.reached 4011) :: (Cell16.reached 4012) :: (Cell16.wall) :: (Cell16.reached 5022) ::
    (Cell16.reached 6023) :: (Cell16.reached 6024) :: (Cell16.wall) :: (Cell16.wall) ::
    (Cell16.wall) :: (Cell16.wall) :: (Cell16.wall) :: (Cell16.wall) :: (Cell16.wall) ::
    (Cell16.wall) :: (Cell16.wall) :: (Cell16.wall) :: (Cell16.wall) :: (Cell16.wall) ::
    (Cell16.wall) :: (Cell16.wall) :: (Cell16.wall) :: (Cell16.wall) :: [])

set_option maxRecDepth 1000000 in
/-- The second day16 fixture parsed by `prepare16` (start `(15, 1)`,
end `(1, 15)`). -/
def maze16b : Grid Cell16 :=
  Grid.mk 17 17 ((Cell16.wall) :: (Cell16.wall) :: (Cell16.wall) :: (Cell16.wall) ::
    (Cell16.wall) :: (Cell16.wall) :: (Cell16.wall) :: (Cell16.wall) :: (Cell16.wall) ::
    (Cell16.wall) :: (Cell16.wall) :: (Cell16.wall) :: (Cell16.wall) :: (Cell16.wall) ::
    (Cell16.wall) :: (Cell16.wall) :: (Cell16.wall) :: (Cell16.wall) :: (Cell16.unreached) ::
    (Cell16.unreached) :: (Cell16.unreached) :: (Cell16.wall) :: (Cell16.unreached) ::
    (Cell16.unreached) :: (Cell16.unreached) :: (Cell16.wall) :: (Cell16.unreached) ::
    (Cell16.unreached) :: (Cell16.unreached) :: (Cell16.wall) :: (Cell16.unreached) ::
    (Cell16.unreached) :: (Cell16.unreached) :: (Cell16.wall) :: (Cell16.wall) ::
    (Cell16.unreached) :: (Cell16.wall) :: (Cell16.unreached) :: (Cell16.wall) ::
    (Cell16.unreached) :: (Cell16.wall) :: (Cell16.unreached) :: (Cell16.wall) ::
    (Cell16.unreached) :: (Cell16.wall) :: (Cell16.unreached) :: (Cell16.wall) ::
    (Cell16.unreached) :: (Cell16.wall) :: (Cell16.unreached) :: (Cell16.wall) :: (Cell16.wall) ::
    (Cell16.unreached) :: (Cell16.wall) :: (Cell16.unreached) :: (Cell16.wall) ::
    (Cell16.unreached) :: (Cell16.wall) :: (Cell16.unreached) :: (Cell16.unreached) ::
    (Cell16.unreached) :: (Cell16.wall) :: (Cell16.unreached) :: (Cell16.unreached) ::
    (Cell16.unreached) :: (Cell16.wall) :: (Cell16.unreached) :: (Cell16.wall) :: (Cell16.wall) ::
    (Cell16.unreached) :: (Cell16.wall) :: (Cell16.unreached) :: (Cell16.wall) ::
    (Cell16.unreached) :: (Cell16.wall) :: (Cell16.unreached) :: (Cell16.wall) :: (Cell16.wall) ::
    (Cell16.wall) :: (Cell16.unreached) :: (Cell16.wall) :: (Cell16.unreached) :: (Cell16.wall) ::
    (Cell16.unreached) :: (Cell16.wall) :: (Cell16.wall) :: (Cell16.unreached) ::
    (Cell16.unreached) :: (Cell16.unreached) :: (Cell16.wall) :: (Cell16.unreached) ::
    (Cell16.wall) :: (Cell16.unreached) :: (Cell16.wall) :: (Cell16.unreached) ::
    (Cell16.unreached) :: (Cell16.unreached) :: (Cell16.unreached) :: (Cell16.unreached) ::
    (Cell16.wall) :: (Cell16.unreached) :: (Cell16.wall) :: (Cell16.wall) :: (Cell16.unreached) ::
    (Cell16.wall) :: (Cell16.unreached) :: (Cell16.wall) :: (Cell16.unreached) :: (Cell16.wall) ::
    (Cell16.unreached) :: (Cell16.wall) :: (Cell16.unreached) :: (Cell16.wall) :: (Cell16.wall) ::
    (Cell16.wall) :: (Cell16.wall) :: (Cell16.wall) :: (Cell16.unreached) :: (Cell16.wall) ::
    (Cell16.wall) :: (Cell16.unreached) :: (Cell16.wall) :: (Cell16.unreached) ::
    (Cell16.unreached) :: (Cell16.unreached) :: (Cell16.wall) :: (Cell16.unreached) ::
    (Cell16.wall) :: (Cell16.unreached) :: (Cell16.wall) :: (Cell16.unreached) ::
    (Cell16.unreached) :: (Cell16.unreached) :: (Cell16.unreached) :: (Cell16.unreached) ::
    (Cell16.wall) :: (Cell16.wall) :: (Cell16.unreached) :: (Cell16.wall) :: (Cell16.unreached) ::
    (Cell16.wall) :: (Cell16.wall) :: (Cell16.wall) :: (Cell16.wall) :: (Cell16.wall) ::
    (Cell16.unreached) :: (Cell16.wall) :: (Cell16.unreached) :: (Cell16.wall) :: (Cell16.wall) ::
    (Cell16.wall) :: (Cell16.unreached) :: (Cell16.wall) :: (Cell16.wall) :: (Cell16.unreached) ::
    (Cell16.wall) :: (Cell16.unreached) :: (Cell16.wall) :: (Cell16.unreached) ::
    (Cell16.unreached) :: (Cell16.unreached) :: (Cell16.unreached) :: (Cell16.unreached) ::
    (Cell16.unreached) :: (Cell16.unreached) :: (Cell16.wall) :: (Cell16.unreached) ::
    (Cell16.unreached) :: (Cell16.unreached) :: (Cell16.wall) :: (Cell16.wall) ::
    (Cell16.unreached) :: (Cell16.wall) :: (Cell16.unreached) :: (Cell16.wall) :: (Cell16.wall) ::
    (Cell16.wall) :: (Cell16.unreached) :: (Cell16.wall) :: (Cell16.wall) :: (Cell16.wall) ::
    (Cell16.wall) :: (Cell16.wall) :: (Cell16.unreached) :: (Cell16.wall) :: (Cell16.wall) ::
    (Cell16.wall) :: (Cell16.wall) :: (Cell16.unreached) :: (Cell16.wall) :: (Cell16.unreached) ::
    (Cell16.wall) :: (Cell16.unreached) :: (Cell16.unreached) :: (Cell16.unreached) ::
    (Cell16.wall) :: (Cell16.unreached) :: (Cell16.unreached) :: (Cell16.unreached) ::
    (Cell16.unreached) :: (Cell16.unreached) :: (Cell16.wall) :: (Cell16.unreached) ::
    (Cell16.wall) :: (Cell16.wall) :: (Cell16.unreached) :: (Cell16.wall) :: (Cell16.unreached) ::
    (Cell16.wall) :: (Cell16.unreached) :: (Cell16.wall) :: (Cell16.wall) :: (Cell16.wall) ::
    (Cell16.wall) :: (Cell16.wall) :: (Cell16.unreached) :: (Cell16.wall) :: (Cell16.wall) ::
    (Cell16.wall) :: (Cell16.unreached) :: (Cell16.wall) :: (Cell16.wall) :: (Cell16.unreached) ::
    (Cell16.wall) :: (Cell16.unreached) :: (Cell16.wall) :: (Cell16.unreached) ::
    (Cell16.unreached) :: (Cell16.unreached) :: (Cell16.unreached) :: (Cell16.unreached) ::
    (Cell16.unreached) :: (Cell16.unreached) :: (Cell16.unreached) :: (Cell16.unreached) ::
    (Cell16.wall) :: (Cell16.unreached) :: (Cell16.wall) :: (Cell16.wall) :: (Cell16.unreached) ::
    (Cell16.wall) :: (Cell16.unreached) :: (Cell16.wall) :: (Cell16.unreached) :: (Cell16.wall) ::
    (Cell16.wall) :: (Cell16.wall) :: (Cell16.wall) :: (Cell16.wall) :: (Cell16.wall) ::
    (Cell16.wall) :: (Cell16.wall) :: (Cell16.wall) :: (Cell16.unreached) :: (Cell16.wall) ::
    (Cell16.wall) :: (Cell16.unreached) :: (Cell16.wall) :: (Cell16.unreached) ::
    (Cell16.unreached) :: (Cell16.unreached) :: (Cell16.unreached) :: (Cell16.unreached) ::
    (Cell16.unreached) :: (Cell16.unreached) :: (Cell16.unreached) :: (Cell16.unreached) ::
    (Cell16.unreached) :: (Cell16.unreached) :: (Cell16.unreached) :: (Cell16.unreached) ::
    (Cell16.wall) :: (Cell16.wall) :: (Cell16.wall) :: (Cell16.wall) :: (Cell16.wall) ::
    (Cell16.wall) :: (Cell16.wall) :: (Cell16.wall) :: (Cell16.wall) :: (Cell16.wall) ::
    (Cell16.wall) :: (Cell16.wall) :: (Cell16.wall) :: (Cell16.wall) :: (Cell16.wall) ::
    (Cell16.wall) :: (Cell16.wall) :: (Cell16.wall) :: [])

/-- Start cell of the second day16 fixture. -/
def start16b : Point := (15, 1)

/-- End cell of the second day16 fixture. -/
def end16b : Point := (1, 15)

set_option maxRecDepth 1000000 in
/-- Least-distance table the forward search computes on the second
day16 fixture. -/
def ld16b : Grid Cell16 :=
  Grid.mk 17 17 ((Cell16.wall) :: (Cell16.wall) :: (Cell16.wall) :: (Cell16.wall) ::
    (Cell16.wall) :: (Cell16.wall) :: (Cell16.wall) :: (Cell16.wall) :: (Cell16.wall) ::
    (Cell16.wall) :: (Cell16.wall) :: (Cell16.wall) :: (Cell16.wall) :: (Cell16.wall) ::
    (Cell16.wall) :: (Cell16.wall) :: (Cell16.wall) :: (Cell16.wall) :: (Cell16.reached 1014) ::
    (Cell16.reached 2015) :: (Cell16.reached 2016) :: (Cell16.wall) :: (Cell16.reached 5022) ::
    (Cell16.reached 6023) :: (Cell16.reached 6024) :: (Cell16.wall) :: (Cell16.reached 9030) ::
    (Cell16.reached 10031) :: (Cell16.reached 10032) :: (Cell16.wall) :: (Cell16.reached 11046) ::
    (Cell16.reached 12047) :: (Cell16.reached 11048) :: (Cell16.wall) :: (Cell16.wall) ::
    (Cell16.reached 1013) :: (Cell16.wall) :: (Cell16.reached 3015) :: (Cell16.wall) ::
    (Cell16.reached 5021) :: (Cell16.wall) :: (Cell16.reached 7025) :: (Cell16.wall) ::
    (Cell16.reached 9029) :: (Cell16.wall) :: (Cell16.reached 11033) :: (Cell16.wall) ::
    (Cell16.reached 11045) :: (Cell16.wall) :: (Cell16.reached 11047) :: (Cell16.wall) ::
    (Cell16.wall) :: (Cell16.reached 1012) :: (Cell16.wall) :: (Cell16.reached 3014) ::
    (Cell16.wall) :: (Cell16.reached 5020) :: (Cell16.wall) :: (Cell16.reached 7026) ::
    (Cell16.reached 8027) :: (Cell16.reached 8028) :: (Cell16.wall) :: (Cell16.reached 11034) ::
    (Cell16.reached 12035) :: (Cell16.reached 11044) :: (Cell16.wall) :: (Cell16.reached 11046) ::
    (Cell16.wall) :: (Cell16.wall) :: (Cell16.reached 1011) :: (Cell16.wall) ::
    (Cell16.reached 3013) :: (Cell16.wall) :: (Cell16.reached 5019) :: (Cell16.wall) ::
    (Cell16.reached 7027) :: (Cell16.wall) :: (Cell16.wall) :: (Cell16.wall) ::
    (Cell16.reached 11035) :: (Cell16.wall) :: (Cell16.reached 11043) :: (Cell16.wall) ::
    (Cell16.reached 11045) :: (Cell16.wall) :: (Cell16.wall) :: (Cell16.reached 1010) ::
    (Cell16.reached 2011) :: (Cell16.reached 2012) :: (Cell16.wall) :: (Cell16.reached 5018) ::
    (Cell16.wall) :: (Cell16.reached 7028) :: (Cell16.wall) :: (Cell16.reached 9038) ::
    (Cell16.reached 10039) :: (Cell16.reached 10040) :: (Cell16.reached 10041) ::
    (Cell16.reached 10042) :: (Cell16.wall) :: (Cell16.reached 11044) :: (Cell16.wall) ::
    (Cell16.wall) :: (Cell16.reached 1009) :: (Cell16.wall) :: (Cell16.reached 3013) ::
    (Cell16.wall) :: (Cell16.reached 5017) :: (Cell16.wall) :: (Cell16.reached 7029) ::
    (Cell16.wall) :: (Cell16.reached 9037) :: (Cell16.wall) :: (Cell16.wall) :: (Cell16.wall) ::
    (Cell16.wall) :: (Cell16.wall) :: (Cell16.reached 11043) :: (Cell16.wall) :: (Cell16.wall) ::
    (Cell16.reached 1008) :: (Cell16.wall) :: (Cell16.reached 3014) :: (Cell16.reached 4015) ::
    (Cell16.reached 4016) :: (Cell16.wall) :: (Cell16.reached 7030) :: (Cell16.wall) ::
    (Cell16.reached 9036) :: (Cell16.wall) :: (Cell16.reached 9038) :: (Cell16.reached 10039) ::
    (Cell16.reached 10040) :: (Cell16.reached 10041) :: (Cell16.reached 10042) :: (Cell16.wall) ::
    (Cell16.wall) :: (Cell16.reached 1007) :: (Cell16.wall) :: (Cell16.reached 3015) ::
    (Cell16.wall) :: (Cell16.wall) :: (Cell16.wall) :: (Cell16.wall) :: (Cell16.wall) ::
    (Cell16.reached 9035) :: (Cell16.wall) :: (Cell16.reached 9037) :: (Cell16.wall) ::
    (Cell16.wall) :: (Cell16.wall) :: (Cell16.reached 11041) :: (Cell16.wall) :: (Cell16.wall) ::
    (Cell16.reached 1006) :: (Cell16.wall) :: (Cell16.reached 3016) :: (Cell16.wall) ::
    (Cell16.reached 8034) :: (Cell16.reached 8033) :: (Cell16.reached 7032) ::
    (Cell16.reached 8033) :: (Cell16.reached 8034) :: (Cell16.reached 8035) ::
    (Cell16.reached 8036) :: (Cell16.wall) :: (Cell16.reached 9038) :: (Cell16.reached 10039) ::
    (Cell16.reached 10040) :: (Cell16.wall) :: (Cell16.wall) :: (Cell16.reached 1005) ::
    (Cell16.wall) :: (Cell16.reached 3017) :: (Cell16.wall) :: (Cell16.wall) :: (Cell16.wall) ::
    (Cell16.reached 7031) :: (Cell16.wall) :: (Cell16.wall) :: (Cell16.wall) :: (Cell16.wall) ::
    (Cell16.wall) :: (Cell16.reached 9037) :: (Cell16.wall) :: (Cell16.wall) :: (Cell16.wall) ::
    (Cell16.wall) :: (Cell16.reached 1004) :: (Cell16.wall) :: (Cell16.reached 3018) ::
    (Cell16.wall) :: (Cell16.reached 5028) :: (Cell16.reached 6029) :: (Cell16.reached 6030) ::
    (Cell16.wall) :: (Cell16.reached 8036) :: (Cell16.reached 8035) :: (Cell16.reached 7034) ::
    (Cell16.reached 8035) :: (Cell16.reached 8036) :: (Cell16.wall) :: (Cell16.reached 5038) ::
    (Cell16.wall) :: (Cell16.wall) :: (Cell16.reached 1003) :: (Cell16.wall) ::
    (Cell16.reached 3019) :: (Cell16.wall) :: (Cell16.reached 5027) :: (Cell16.wall) ::
    (Cell16.wall) :: (Cell16.wall) :: (Cell16.wall) :: (Cell16.wall) :: (Cell16.reached 7033) ::
    (Cell16.wall) :: (Cell16.wall) :: (Cell16.wall) :: (Cell16.reached 5037) :: (Cell16.wall) ::
    (Cell16.wall) :: (Cell16.reached 1002) :: (Cell16.wall) :: (Cell16.reached 3020) ::
    (Cell16.wall) :: (Cell16.reached 5026) :: (Cell16.reached 6027) :: (Cell16.reached 6028) ::
    (Cell16.reached 6029) :: (Cell16.reached 6030) :: (Cell16.reached 6031) ::
    (Cell16.reached 6032) :: (Cell16.reached 6033) :: (Cell16.reached 6034) :: (Cell16.wall) ::
    (Cell16.reached 5036) :: (Cell16.wall) :: (Cell16.wall) :: (Cell16.reached 1001) ::
    (Cell16.wall) :: (Cell16.reached 3021) :: (Cell16.wall) :: (Cell16.reached 5025) ::
    (Cell16.wall) :: (Cell16.wall) :: (Cell16.wall) :: (Cell16.wall) :: (Cell16.wall) ::
    (Cell16.wall) :: (Cell16.wall) :: (Cell16.wall) :: (Cell16.wall) :: (Cell16.reached 5035) ::
    (Cell16.wall) :: (Cell16.wall) :: (Cell16.reached 0) :: (Cell16.wall) ::
    (Cell16.reached 3022) :: (Cell16.reached 4023) :: (Cell16.reached 4024) ::
    (Cell16.reached 4025) :: (Cell16.reached 4026) :: (Cell16.reached 4027) ::
    (Cell16.reached 4028) :: (Cell16.reached 4029) :: (Cell16.reached 4030) ::
    (Cell16.reached 4031) :: (Cell16.reached 4032) :: (Cell16.reached 4033) ::
    (Cell16.reached 4034) :: (Cell16.wall) :: (Cell16.wall) :: (Cell16.wall) :: (Cell16.wall) ::
    (Cell16.wall) :: (Cell16.wall) :: (Cell16.wall) :: (Cell16.wall) :: (Cell16.wall) ::
    (Cell16.wall) :: (Cell16.wall) :: (Cell16.wall) :: (Cell16.wall) :: (Cell16.wall) ::
    (Cell16.wall) :: (Cell16.wall) :: (Cell16.wall) :: (Cell16.wall) :: [])

/-! ## Day 12: region partition and boundary accounting
(src/days/day12.rs) -/

/-- Signed position of a flat cell index (the inverse of `idxPt` on
the valid range). -/
def pointOfIndex {α : Type} (m : Grid α) (i : Nat) : Point :=
  (((i / m.columns : Nat) : Int), ((i % m.columns : Nat) : Int))

/-- Modelled from the spec: `checked_index` taking a signed position
(`None` outside the grid, spec section 4.2). -/
def Grid.checkedIndexPt {α : Type} (g : Grid α) (p : Point) : Option Nat :=
  if g.validPt p then some (g.idxPt p) else none

/-- Modelled from the spec: the four diagonal direction constants used
by the corner tests (spec sections 2 and 4.8). -/
def Point.northEast : Point := (-1, 1)

/-- Modelled from the spec: south-east diagonal. -/
def Point.southEast : Point := (1, 1)

/-- Modelled from the spec: south-west diagonal. -/
def Point.southWest : Point := (1, -1)

/-- Modelled from the spec: north-west diagonal. -/
def Point.northWest : Point := (-1, -1)

/-- Modelled from the spec: the disjoint-set structure of the
third-party `partitions::PartitionVec` (spec sections 3 and 9),
represented as the list assigning every cell index its class label;
`push` over all cells is the initial identity labelling. -/
def ufInit (n : Nat) : List Nat := List.range n

/-- Modelled from the spec: `union` merges the classes of the two
indices (every member of the second class is relabelled into the
first). -/
def ufUnion (uf : List Nat) (a b : Nat) : List Nat :=
  uf.map (fun l => if l = uf.getD b 0 then uf.getD a 0 else l)

/-- Modelled from the spec: `same_set` holds when two indices carry
the same class label. -/
def ufSame (uf : List Nat) (a b : Nat) : Bool :=
  decide (uf.getD a 0 = uf.getD b 0)

/-- The four cardinal directions in the neighbour-visit order of
`for_each_neighbour` (north, east, south, west). -/
def cardinals : List Point :=
  Point.north :: Point.east :: Point.south :: Point.west :: []

/-- Embedding of the union pass of `compute_regions_and_fences`: for
every cell in row-major order and every in-bounds 4-neighbour growing
the same plant, union the two cell indices. -/
def day12Regions (farm : Grid Char) : List Nat :=
  (List.range farm.size).foldl
    (fun uf i =>
      cardinals.foldl
        (fun uf2 d =>
          match farm.stepPt (pointOfIndex farm i) d with
          | none => uf2
          | some neigh =>
            match farm.uncheckedGetPt neigh, farm.getPt (pointOfIndex farm i) with
            | some nPlant, some plant =>
              if nPlant = plant then ufUnion uf2 i (farm.idxPt neigh) else uf2
            | _, _ => uf2)
        uf)
    (ufInit farm.size)

/-- Embedding of the fence count of one plot: four fences minus one
per in-bounds 4-neighbour growing the same plant. -/
def day12Fences (farm : Grid Char) (i : Nat) : Nat :=
  4 - (cardinals.countP
    (fun d =>
      match farm.stepPt (pointOfIndex farm i) d with
      | none => false
      | some neigh =>
        match farm.uncheckedGetPt neigh, farm.getPt (pointOfIndex farm i) with
        | some nPlant, some plant => nPlant = plant
        | _, _ => false))

/-- Embedding of the per-cell corner count of `solve_part2`: the four
convex and four concave 3-by-3 neighbourhood patterns, counted with
`same_set`/`other_sets` region tests against the union-find labels. -/
def day12Corners (farm : Grid Char) (uf : List Nat) (i : Nat) : Nat :=
  let pos := pointOfIndex farm i
  let notSame := fun d : Point =>
    match farm.checkedIndexPt (pos.addPt d) with
    | none => true
    | some j => !(ufSame uf i j)
  let same := fun d : Point =>
    match farm.checkedIndexPt (pos.addPt d) with
    | none => false
    | some j => ufSame uf i j
  (if notSame Point.west && notSame Point.south then 1 else 0)
    + (if notSame Point.east && notSame Point.south then 1 else 0)
    + (if notSame Point.north && notSame Point.east then 1 else 0)
    + (if notSame Point.north && notSame Point.west then 1 else 0)
    + (if same Point.west && same Point.south && notSame Point.southWest then 1 else 0)
    + (if same Point.east && same Point.south && notSame Point.southEast then 1 else 0)
    + (if same Point.north && same Point.east && notSame Point.northEast then 1 else 0)
    + (if same Point.north && same Point.west && notSame Point.northWest then 1 else 0)

/-- Members of one region, by class label. -/
def regionMembers (uf : List Nat) (label : Nat) : List Nat :=
  (List.range uf.length).filter (fun i => decide (uf.getD i 0 = label))

/-- Embedding of `solve_part1` from the prepared farm on: over all
regions, the sum of `area * perimeter`. -/
def day12Part1 (farm : Grid Char) : Nat :=
  ((day12Regions farm).dedup.map
    (fun label =>
      (regionMembers (day12Regions farm) label).length
        * ((regionMembers (day12Regions farm) label).map
            (fun i => day12Fences farm i)).sum)).sum

/-- Embedding of `solve_part2` from the prepared farm on: over all
regions, the sum of `area * sides`, sides counted as corners. -/
def day12Part2 (farm : Grid Char) : Nat :=
  ((day12Regions farm).dedup.map
    (fun label =>
      (regionMembers (day12Regions farm) label).length
        * ((regionMembers (day12Regions farm) label).map
            (fun i => day12Corners farm (day12Regions farm) i)).sum)).sum

/-- Embedding of the day12 `solve_part1` (prepare is `Grid::new`). -/
def solve12Part1 (input : List Char) : Option Nat :=
  (Grid.new input).map (fun farm => day12Part1 farm)

/-- Embedding of the day12 `solve_part2`. -/
def solve12Part2 (input : List Char) : Option Nat :=
  (Grid.new input).map (fun farm => day12Part2 farm)

/-- The 10 by 10 mixed-letter day12 example fixture (EXAMPLE_INPUT). -/
def fixture12a : List Char :=
  ("RRRRIICCFF RRRRIICCCF VVRRRCCFFF VVRCCCJFFF VVVVCJJCFE VVIVCCJJEE VVIIICJJEE MIIIIIJJEE MIIISIJEEE MMMISSJEEE".toList)

/-- The 4 by 4 four-region day12 fixture. -/
def fixture12b : List Char := ("AAAA BBCD BBCC EEEC".toList)

/-- The nested-square day12 fixture. -/
def fixture12c : List Char := ("EEEEE EXXXX EEEEE EXXXX EEEEE".toList)

/-- The diagonal-blobs day12 fixture. -/
def fixture12d : List Char :=
  ("AAAAAA AAABBA AAABBA ABBAAA ABBAAA AAAAAA".toList)

/-- Concrete well-formed two-by-two character grid used by the
out-of-range accessor statements. -/
def gridABCD : Grid Char :=
  Grid.mk 2 2 (List.cons 'a' (List.cons 'b' (List.cons 'c' (List.cons 'd' List.nil))))

/-- Encoding of a patrol state as a number below `4 * size`, for the
cardinality bound on the patrolled set. -/
def stateCode (m : Grid Cell06) (s : Point × Point) : Nat :=
  4 * m.idxPt s.1 + (directionId s.2).getD 0

/-- Flag stored in the fast patrol's table for a state, `false` when
the indices fall outside the table. -/
def tableEntry (m : Grid Cell06) (tbl : List (List Bool)) (p dd : Point) : Bool :=
  match tbl.get? (m.idxPt p), directionId dd with
  | some row, some k => (row.get? k).getD false
  | _, _ => false

/-- Relation between the slow patrol's state (patrolled set and
location set) and the fast patrol's flag table, together with the
bookkeeping facts both loops preserve. -/
structure PatrolInv (m : Grid Cell06) (g0 : Point) (P : List (Point × Point))
    (locs : List Point) (tbl : List (List Bool)) : Prop where
  tlen : tbl.length = m.size
  rows : ∀ row ∈ tbl, row.length = 4
  entry : ∀ p dd, m.validPt p = true → dd ∈ dirs4 →
    ((p, dd) ∈ P ↔ tableEntry m tbl p dd = true)
  pvalid : ∀ s ∈ P, m.validPt s.1 = true ∧ s.2 ∈ dirs4
  locIff : ∀ p, p ∈ locs ↔ ∃ dd, (p, dd) ∈ P
  locNd : locs.Nodup
  locEmpty : ∀ p ∈ locs, p = g0 ∨ m.getPt p = some Cell06.empty

/-- Loop verdict of one slow-patrol obstruction trial at a candidate
position, `false` when the trial cannot run; the specification value
each iteration of the part-2 loop computes. -/
def obstructedVerdictSlow (m : Grid Cell06) (g p : Point) : Bool :=
  match m.setPt p Cell06.obstruction with
  | none => false
  | some m1 =>
    match patrolSlow m1 g with
    | none => false
    | some r => r.2

/-- Loop verdict of one fast-patrol obstruction trial at a candidate
index. -/
def obstructedVerdictFast (m : Grid Cell06) (g : Point) (i : Nat) : Bool :=
  match m.setAt i Cell06.obstruction with
  | none => false
  | some m1 =>
    match patrolFast m1 g with
    | none => false
    | some r => r.2

/-- Concrete one-cell map used by the day06 witnesses. -/
def patrolMap1 : Grid Cell06 := Grid.mk 1 1 (List.cons Cell06.empty List.nil)

/-- First day16 test maze (15 by 15). -/
def fixture16a : List Char := ("###############
#.......#....E#
#.#.###.#.###.#
#.....#.#...#.#
#.###.#####.#.#
#.#.#.......#.#
#.#.#####.###.#
#...........#.#
###.#.#####.#.#
#...#.....#.#.#
#.#.#.###.#.#.#
#.....#...#.#.#
#.###.#.#.#.#.#
#S..#.....#...#
###############".toList)

/-- Second, denser day16 test maze (17 by 17). -/
def fixture16b : List Char := ("#################
#...#...#...#..E#
#.#.#.#.#.#.#.#.#
#.#.#.#...#...#.#
#.#.#.#.###.#.#.#
#...#.#.#.....#.#
#.#.#.#.#.#####.#
#.#...#.#.#.....#
#.#.#####.#.###.#
#.#.#.......#...#
#.#.###.#####.###
#.#.#...#.....#.#
#.#.#.#####.###.#
#.#.#.........#.#
#.#.#.#########.#
#S#.............#
#################".toList)

/-- Concrete two-cell least-distance maps for the day16 backward
traversal statements. -/
def grid16Counter : Grid Cell16 :=
  Grid.mk 1 2 (Cell16.reached 0 :: Cell16.reached 5 :: [])

/-- Variant with an expensive predecessor, rejected by both tests. -/
def grid16Reject : Grid Cell16 :=
  Grid.mk 1 2 (Cell16.reached 100 :: Cell16.reached 5 :: [])

end AoC

namespace AoC

/-! ## Theorems on the vector and grid layer -/

/-- Claim C9: for every displacement, four clockwise rotations are the
identity, clockwise after counter-clockwise is the identity, one
clockwise rotation maps `(dr, dc)` to `(dc, -dr)`, and the 180-degree
rotation negates both components. -/
theorem rotation_laws (d : Point) :
    ((((d.rotate_90_clockwise).rotate_90_clockwise).rotate_90_clockwise).rotate_90_clockwise
        = d)
      ∧ (d.rotate_90_counterclockwise).rotate_90_clockwise = d
      ∧ d.rotate_90_clockwise = (d.2, -d.1)
      ∧ d.rotate_180 = (-d.1, -d.2) := by
  refine ⟨?_, ?_, rfl, rfl⟩
  · simp [Point.rotate_90_clockwise]
  · simp [Point.rotate_90_clockwise, Point.rotate_90_counterclockwise]

/-- Claim C8: on a grid with a positive column count, the row-major
conversions are mutually inverse over the valid range: converting a
valid flat index to a position and back returns the index, and
converting a valid position to its flat index and back returns the
position. -/
theorem index_position_bijection {α : Type} (g : Grid α)
    (hcol : 0 < g.columns) :
    (∀ i : Nat, i < g.lines * g.columns →
        g.unchecked_index (g.unchecked_position i) = i)
      ∧ (∀ p : Position, g.valid_position p = true →
        g.unchecked_position (g.unchecked_index p) = p) := by
  constructor
  · intro i _
    simp only [Grid.unchecked_index, Grid.unchecked_position]
    exact Nat.div_add_mod i g.columns
  · intro p hp
    simp only [Grid.valid_position, Bool.and_eq_true, decide_eq_true_eq] at hp
    simp only [Grid.unchecked_index, Grid.unchecked_position]
    have h1 : (g.columns * p.1 + p.2) / g.columns = p.1 := by
      rw [Nat.mul_add_div hcol, Nat.div_eq_of_lt hp.2]
      omega
    have h2 : (g.columns * p.1 + p.2) % g.columns = p.2 := by
      rw [Nat.mul_add_mod, Nat.mod_eq_of_lt hp.2]
    rw [h1, h2]

/-! ## Helper lemmas on the early-return collection loop -/

theorem optionCollect_isSome {α β : Type} (f : β → Option α) (l : List β) :
    (optionCollect f l).isSome = true ↔ ∀ b ∈ l, (f b).isSome = true := by
  induction l with
  | nil => simp [optionCollect]
  | cons a t ih =>
    unfold optionCollect
    cases hfa : f a with
    | none =>
      constructor
      · intro h
        simp at h
      · intro h
        have := h a (List.mem_cons_self a t)
        rw [hfa] at this
        simp at this
    | some x =>
      cases hft : optionCollect f t with
      | none =>
        rw [hft] at ih
        constructor
        · intro h
          simp at h
        · intro h
          have := ih.mpr (fun b hb => h b (List.mem_cons_of_mem a hb))
          simp at this
      | some xs =>
        rw [hft] at ih
        constructor
        · intro _ b hb
          rcases List.mem_cons.mp hb with hb | hb
          · rw [hb, hfa]; rfl
          · exact ih.mp rfl b hb
        · intro _
          rfl

theorem optionCollect_some {α β : Type} (f : β → Option α) (l : List β)
    (out : List α) (h : optionCollect f l = some out) :
    out.length = l.length ∧ ∀ i (hi : i < l.length), out.get? i = f (l.get ⟨i, hi⟩) := by
  induction l generalizing out with
  | nil =>
    simp only [optionCollect, Option.some_inj] at h
    subst h
    exact ⟨rfl, fun i hi => absurd hi (Nat.not_lt_zero i)⟩
  | cons a t ih =>
    unfold optionCollect at h
    cases hfa : f a with
    | none => rw [hfa] at h; exact absurd h (by simp)
    | some x =>
      rw [hfa] at h
      cases hft : optionCollect f t with
      | none => rw [hft] at h; exact absurd h (by simp)
      | some xs =>
        rw [hft] at h
        simp only [Option.some_inj] at h
        subst h
        obtain ⟨hlen, hget⟩ := ih xs hft
        refine ⟨by simp [hlen], ?_⟩
        intro i hi
        cases i with
        | zero => simpa using hfa.symm
        | succ j =>
          have hj : j < t.length := by simpa using hi
          simpa using hget j hj

theorem flatten_length_of_width {α : Type} (rows : List (List α)) (w : Nat)
    (h : ∀ r ∈ rows, r.length = w) :
    rows.flatten.length = rows.length * w := by
  induction rows with
  | nil => simp
  | cons r t ih =>
    have hr := h r (List.mem_cons_self r t)
    have ht := ih (fun s hs => h s (List.mem_cons_of_mem r hs))
    simp [List.flatten_cons, hr, ht, Nat.succ_mul, Nat.add_comm]

/-- Claim C1 counterexample: on the ragged input "ab a" (rows of widths
two and one), `Grid::new` does not fail: it returns a grid whose item
count, three, differs from `lines * columns = 4`. -/
theorem grid_new_ragged_counterexample :
    Grid.new (List.cons 'a' (List.cons 'b' (List.cons ' ' (List.cons 'a' List.nil))))
        = some (Grid.mk 2 2 (List.cons 'a' (List.cons 'b' (List.cons 'a' List.nil))))
      ∧ ¬ (Grid.mk 2 2 (List.cons 'a' (List.cons 'b' (List.cons 'a' List.nil)))
          : Grid Char).Wellformed := by
  decide

/-- Claim C1 amended: `Grid::new` performs no width-consistency check.
On any input holding at least one whitespace-delimited row it returns a
grid whose height is the number of rows, whose width is the width of the
FIRST row alone, and whose items concatenate all rows; the shape
invariant `items.len == lines * columns` is guaranteed only when every
row has the first row's width.  The construction fails (panics) only
when the input holds no row at all. -/
theorem grid_new_no_width_check (input : List Char) (first : List Char)
    (rest : List (List Char))
    (hrows : splitAsciiWhitespace input = first :: rest) :
    ∃ g : Grid Char,
      Grid.new input = some g
        ∧ g.lines = (first :: rest).length
        ∧ g.columns = first.length
        ∧ g.items = (first :: rest).flatten
        ∧ ((∀ r ∈ first :: rest, r.length = first.length) → g.Wellformed) := by
  refine ⟨Grid.mk (first :: rest).length first.length (first :: rest).flatten, ?_, rfl, rfl, rfl, ?_⟩
  · unfold Grid.new
    rw [hrows]
    rfl
  · intro hall
    unfold Grid.Wellformed
    exact flatten_length_of_width (first :: rest) first.length hall

/-- Witness for claim C1 at the concrete non-ragged input "ab cd". -/
theorem grid_new_no_width_check_witness :
    ∃ g : Grid Char,
      Grid.new (List.cons 'a' (List.cons 'b' (List.cons ' ' (List.cons 'c'
          (List.cons 'd' List.nil))))) = some g
        ∧ g.lines = (List.cons (List.cons 'a' (List.cons 'b' List.nil))
            (List.cons (List.cons 'c' (List.cons 'd' List.nil)) List.nil)).length
        ∧ g.columns = (List.cons 'a' (List.cons 'b' List.nil)).length
        ∧ g.items = (List.cons (List.cons 'a' (List.cons 'b' List.nil))
            (List.cons (List.cons 'c' (List.cons 'd' List.nil)) List.nil)).flatten
        ∧ ((∀ r ∈ List.cons (List.cons 'a' (List.cons 'b' List.nil))
              (List.cons (List.cons 'c' (List.cons 'd' List.nil)) List.nil),
            r.length = (List.cons 'a' (List.cons 'b' List.nil)).length) → g.Wellformed) :=
  grid_new_no_width_check _ _ _ (by decide)

/-- Claim C3 counterexample: on a well-formed two-by-two grid, the
unchecked accessor applied to the out-of-range position `(0, 2)` does
not fail: it silently returns the value stored at the different,
in-range cell `(1, 0)` (row-major wrap-around). -/
theorem unchecked_get_wraps_counterexample :
    gridABCD.Wellformed
      ∧ gridABCD.valid_position (0, 2) = false
      ∧ gridABCD.unchecked_get (0, 2) = some 'c'
      ∧ gridABCD.get (1, 0) = some 'c'
      ∧ ((1, 0) : Position) ≠ (0, 2) := by
  decide

/-- Claim C3 amended: on an out-of-range position the unchecked
accessors fail (the `unwrap` panics) only when the computed flat index
`columns * row + col` falls outside the backing storage; when that flat
index still lies inside the storage, `unchecked_get` silently returns
the value of a different, in-range cell (the cell at the row-major
wrap-around of the flat index), and `unchecked_index` itself never
fails. -/
theorem unchecked_get_out_of_range {α : Type} (g : Grid α) (hwf : g.Wellformed)
    (p : Position) (hp : g.valid_position p = false) :
    (g.items.length ≤ g.unchecked_index p → g.unchecked_get p = none)
      ∧ (g.unchecked_index p < g.items.length →
        ∃ q : Position, g.valid_position q = true ∧ q ≠ p
          ∧ g.unchecked_get p = g.get q ∧ (g.unchecked_get p).isSome = true) := by
  constructor
  · intro hle
    unfold Grid.unchecked_get
    exact List.get?_eq_none.mpr hle
  · intro hidx
    have hsize : g.items.length = g.lines * g.columns := hwf
    have hcol : 0 < g.columns := by
      rcases Nat.eq_zero_or_pos g.columns with h0 | h0
      · rw [hsize, h0, Nat.mul_zero] at hidx
        exact absurd hidx (Nat.not_lt_zero _)
      · exact h0
    set idx := g.unchecked_index p with hidxdef
    refine ⟨g.unchecked_position idx, ?_, ?_, ?_, ?_⟩
    · have h1 : idx / g.columns < g.lines := by
        rw [hsize] at hidx
        exact Nat.div_lt_of_lt_mul (by rw [Nat.mul_comm] at hidx; exact hidx)
      have h2 : idx % g.columns < g.columns := Nat.mod_lt idx hcol
      simp [Grid.unchecked_position, Grid.valid_position, h1, h2]
    · simp only [Grid.valid_position, Bool.and_eq_true, decide_eq_true_eq,
        Bool.and_eq_false_iff, decide_eq_false_iff_not, Nat.not_lt] at hp
      intro heq
      rcases Nat.lt_or_ge p.2 g.columns with hp2 | hp2
      · rcases hp with hp1 | hp1
        · have : g.lines * g.columns ≤ idx := by
            calc g.lines * g.columns ≤ p.1 * g.columns := Nat.mul_le_mul_right _ hp1
            _ ≤ g.columns * p.1 + p.2 := by rw [Nat.mul_comm]; exact Nat.le_add_right _ _
          rw [hsize] at hidx
          exact absurd hidx (Nat.not_lt_of_ge this)
        · exact absurd hp2 (Nat.not_lt_of_ge hp1)
      · have : (g.unchecked_position idx).2 < g.columns := Nat.mod_lt idx hcol
        rw [heq] at this
        exact absurd (Nat.lt_of_lt_of_le this hp2) (Nat.lt_irrefl _)
    · unfold Grid.unchecked_get Grid.get Grid.checked_index
      have hvalid : g.valid_position (g.unchecked_position idx) = true := by
        have h1 : idx / g.columns < g.lines := by
          rw [hsize] at hidx
          exact Nat.div_lt_of_lt_mul (by rw [Nat.mul_comm] at hidx; exact hidx)
        have h2 : idx % g.columns < g.columns := Nat.mod_lt idx hcol
        simp [Grid.unchecked_position, Grid.valid_position, h1, h2]
      rw [hvalid]
      simp only [if_pos]
      have hround : g.unchecked_index (g.unchecked_position idx) = idx := by
        simp only [Grid.unchecked_index, Grid.unchecked_position]
        exact Nat.div_add_mod idx g.columns
      rw [hround]
      rfl
    · unfold Grid.unchecked_get
      rw [List.get?_eq_get hidx]
      rfl

/-- Witness for claim C3: the amended statement instantiated at the
two-by-two grid and the out-of-range position `(0, 2)`. -/
theorem unchecked_get_out_of_range_witness :
    (gridABCD.items.length ≤ gridABCD.unchecked_index (0, 2) →
        gridABCD.unchecked_get (0, 2) = none)
      ∧ (gridABCD.unchecked_index (0, 2) < gridABCD.items.length →
        ∃ q : Position, gridABCD.valid_position q = true ∧ q ≠ (0, 2)
          ∧ gridABCD.unchecked_get (0, 2) = gridABCD.get q
          ∧ (gridABCD.unchecked_get (0, 2)).isSome = true) :=
  unchecked_get_out_of_range gridABCD (by decide) (0, 2) (by decide)

theorem get_isSome_iff_valid {α : Type} (g : Grid α) (hwf : g.Wellformed)
    (p : Position) :
    (g.get p).isSome = true ↔ g.valid_position p = true := by
  unfold Grid.get Grid.checked_index
  cases hv : g.valid_position p with
  | false => simp
  | true =>
    simp only [if_pos, Option.some_bind]
    have hp : p.1 < g.lines ∧ p.2 < g.columns := by
      simpa [Grid.valid_position] using hv
    have hidx : g.unchecked_index p < g.items.length := by
      unfold Grid.unchecked_index
      rw [hwf]
      calc g.columns * p.1 + p.2 < g.columns * p.1 + g.columns :=
            Nat.add_lt_add_left hp.2 _
        _ = g.columns * (p.1 + 1) := by ring
        _ ≤ g.columns * g.lines := Nat.mul_le_mul_left _ hp.1
        _ = g.lines * g.columns := Nat.mul_comm _ _
    rw [List.get?_eq_get hidx]
    simp

theorem cell_isSome_iff {α : Type} (g : Grid α) (hwf : g.Wellformed)
    (origin : Position) (d : Point) :
    ((origin.add d).bind (fun pos => g.get pos)).isSome = true
      ↔ ∃ p, origin.add d = some p ∧ g.valid_position p = true := by
  cases ha : origin.add d with
  | none => simp
  | some p =>
    simp only [Option.some_bind]
    rw [get_isSome_iff_valid g hwf]
    constructor
    · intro h
      exact ⟨p, rfl, h⟩
    · rintro ⟨q, hq, hval⟩
      cases hq
      exact hval

/-- Claim C7: pattern extraction is all-or-nothing.  On a well-formed
grid, `step_extract` succeeds exactly when every one of the `n`
generated coordinates stays on the grid (coordinates lost to
signed-addition underflow included), and a successful result is the
full list of `n` cell values, one per offset; `deltas_extract`
satisfies the same contract for an arbitrary offset list.  Neither ever
returns a shorter list. -/
theorem extract_all_or_nothing {α : Type} (g : Grid α) (hwf : g.Wellformed)
    (origin : Position) :
    (∀ (st : Point) (n : Nat),
      ((g.step_extract origin st n).isSome = true
        ↔ ∀ i, i < n →
          ∃ p, origin.add (st.mulScalar (i : Int)) = some p ∧ g.valid_position p = true)
      ∧ ∀ out, g.step_extract origin st n = some out →
          out.length = n ∧ ∀ i, i < n → out.get? i = g.stepExtractCell origin st i)
    ∧ (∀ deltas : List Point,
      ((g.deltas_extract origin deltas).isSome = true
        ↔ ∀ d ∈ deltas, ∃ p, origin.add d = some p ∧ g.valid_position p = true)
      ∧ ∀ out, g.deltas_extract origin deltas = some out →
          out.length = deltas.length
            ∧ ∀ i (hi : i < deltas.length),
              out.get? i = (origin.add (deltas.get ⟨i, hi⟩)).bind (fun p => g.get p)) := by
  constructor
  · intro st n
    constructor
    · unfold Grid.step_extract
      rw [optionCollect_isSome]
      constructor
      · intro h i hi
        have := h i (List.mem_range.mpr hi)
        unfold Grid.stepExtractCell at this
        exact (cell_isSome_iff g hwf origin (st.mulScalar (i : Int))).mp this
      · intro h i hi
        have hi2 := List.mem_range.mp hi
        unfold Grid.stepExtractCell
        exact (cell_isSome_iff g hwf origin (st.mulScalar (i : Int))).mpr (h i hi2)
    · intro out hout
      unfold Grid.step_extract at hout
      obtain ⟨hlen, hget⟩ := optionCollect_some _ _ _ hout
      rw [List.length_range] at hlen
      refine ⟨hlen, ?_⟩
      intro i hi
      have hi2 : i < (List.range n).length := by rw [List.length_range]; exact hi
      have := hget i hi2
      rwa [List.get_range] at this
  · intro deltas
    constructor
    · unfold Grid.deltas_extract
      rw [optionCollect_isSome]
      constructor
      · intro h d hd
        exact (cell_isSome_iff g hwf origin d).mp (h d hd)
      · intro h d hd
        exact (cell_isSome_iff g hwf origin d).mpr (h d hd)
    · intro out hout
      unfold Grid.deltas_extract at hout
      exact optionCollect_some _ _ _ hout

/-- Witness for claim C7: the contract instantiated on the concrete
two-by-two grid with origin `(0, 0)`. -/
theorem extract_all_or_nothing_witness :
    (∀ (st : Point) (n : Nat),
      ((gridABCD.step_extract (0, 0) st n).isSome = true
        ↔ ∀ i, i < n →
          ∃ p, Position.add (0, 0) (st.mulScalar (i : Int)) = some p
            ∧ gridABCD.valid_position p = true)
      ∧ ∀ out, gridABCD.step_extract (0, 0) st n = some out →
          out.length = n ∧ ∀ i, i < n → out.get? i = gridABCD.stepExtractCell (0, 0) st i)
    ∧ (∀ deltas : List Point,
      ((gridABCD.deltas_extract (0, 0) deltas).isSome = true
        ↔ ∀ d ∈ deltas, ∃ p, Position.add (0, 0) d = some p
          ∧ gridABCD.valid_position p = true)
      ∧ ∀ out, gridABCD.deltas_extract (0, 0) deltas = some out →
          out.length = deltas.length
            ∧ ∀ i (hi : i < deltas.length),
              out.get? i = (Position.add (0, 0) (deltas.get ⟨i, hi⟩)).bind
                (fun p => gridABCD.get p)) :=
  extract_all_or_nothing gridABCD (by decide) (0, 0)

/-! ## Lemmas on the Point-typed accessors -/

theorem rowmajor_lt (cols rows lt ct : Nat) (h1 : lt < rows) (h2 : ct < cols) :
    cols * lt + ct < rows * cols := by
  calc cols * lt + ct < cols * lt + cols := by omega
    _ = cols * (lt + 1) := by ring
    _ ≤ cols * rows := Nat.mul_le_mul_left _ h1
    _ = rows * cols := Nat.mul_comm _ _

theorem validPt_iff {α : Type} (g : Grid α) (p : Point) :
    g.validPt p = true
      ↔ 0 ≤ p.1 ∧ p.1 < (g.lines : Int) ∧ 0 ≤ p.2 ∧ p.2 < (g.columns : Int) := by
  unfold Grid.validPt
  simp only [Bool.and_eq_true, decide_eq_true_eq]
  constructor
  · rintro ⟨⟨⟨h1, h2⟩, h3⟩, h4⟩
    exact ⟨h1, h2, h3, h4⟩
  · rintro ⟨h1, h2, h3, h4⟩
    exact ⟨⟨⟨h1, h2⟩, h3⟩, h4⟩

theorem idxPt_lt_size {α : Type} (g : Grid α) (p : Point)
    (hp : g.validPt p = true) : g.idxPt p < g.size := by
  rw [validPt_iff] at hp
  unfold Grid.idxPt Grid.size
  have h1 : p.1.toNat < g.lines := by omega
  have h2 : p.2.toNat < g.columns := by omega
  exact rowmajor_lt _ _ _ _ h1 h2

theorem idxPt_inj {α : Type} (g : Grid α) (p q : Point)
    (hp : g.validPt p = true) (hq : g.validPt q = true)
    (h : g.idxPt p = g.idxPt q) : p = q := by
  rw [validPt_iff] at hp hq
  unfold Grid.idxPt at h
  have hcol : 0 < g.columns := by omega
  have hpc : p.2.toNat < g.columns := by omega
  have hqc : q.2.toNat < g.columns := by omega
  have hdiv := congrArg (fun x => x / g.columns) h
  have hmod := congrArg (fun x => x % g.columns) h
  simp only [Nat.mul_add_div hcol, Nat.mul_add_mod] at hdiv hmod
  rw [Nat.div_eq_of_lt hpc, Nat.div_eq_of_lt hqc] at hdiv
  rw [Nat.mod_eq_of_lt hpc, Nat.mod_eq_of_lt hqc] at hmod
  have e1 : p.1 = q.1 := by omega
  have e2 : p.2 = q.2 := by omega
  exact Prod.ext e1 e2

theorem getPt_isSome_of_valid {α : Type} (g : Grid α) (hwf : g.Wellformed)
    (p : Point) (hp : g.validPt p = true) : (g.getPt p).isSome = true := by
  unfold Grid.getPt
  rw [hp]
  simp only [if_true]
  have hidx : g.idxPt p < g.items.length := by
    rw [hwf]
    exact idxPt_lt_size g p hp
  rw [List.get?_eq_get hidx]
  rfl

theorem uncheckedGetPt_eq_getPt {α : Type} (g : Grid α) (p : Point)
    (hp : g.validPt p = true) : g.uncheckedGetPt p = g.getPt p := by
  unfold Grid.uncheckedGetPt Grid.getPt
  rw [hp]
  simp

theorem stepPt_valid {α : Type} (g : Grid α) (o d q : Point)
    (h : g.stepPt o d = some q) : g.validPt q = true ∧ q = o.addPt d := by
  unfold Grid.stepPt at h
  by_cases hv : g.validPt (o.addPt d) = true
  · rw [if_pos hv] at h
    cases h
    exact ⟨hv, rfl⟩
  · rw [if_neg hv] at h
    cases h

theorem dirs4_rotate (d : Point) (hd : d ∈ dirs4) :
    d.rotate_90_clockwise ∈ dirs4 := by
  fin_cases hd <;> decide

theorem directionId_of_dirs4 (d : Point) (hd : d ∈ dirs4) :
    ∃ k, directionId d = some k ∧ k < 4 := by
  fin_cases hd <;> decide

theorem directionId_inj (a b : Point) (ha : a ∈ dirs4) (hb : b ∈ dirs4)
    (h : directionId a = directionId b) : a = b := by
  fin_cases ha <;> fin_cases hb <;> revert h <;> decide

/-! ## Termination bound of the patrols -/

theorem stateCode_lt (m : Grid Cell06) (s : Point × Point)
    (h1 : m.validPt s.1 = true) (h2 : s.2 ∈ dirs4) :
    stateCode m s < 4 * m.size := by
  obtain ⟨k, hk, hk4⟩ := directionId_of_dirs4 s.2 h2
  have hidx := idxPt_lt_size m s.1 h1
  unfold stateCode
  rw [hk]
  simp only [Option.getD_some]
  omega

theorem stateCode_inj (m : Grid Cell06) (s t : Point × Point)
    (hs1 : m.validPt s.1 = true) (hs2 : s.2 ∈ dirs4)
    (ht1 : m.validPt t.1 = true) (ht2 : t.2 ∈ dirs4)
    (h : stateCode m s = stateCode m t) : s = t := by
  obtain ⟨ks, hks, hks4⟩ := directionId_of_dirs4 s.2 hs2
  obtain ⟨kt, hkt, hkt4⟩ := directionId_of_dirs4 t.2 ht2
  unfold stateCode at h
  rw [hks, hkt] at h
  simp only [Option.getD_some] at h
  have hidx : m.idxPt s.1 = m.idxPt t.1 := by omega
  have hkeq : ks = kt := by omega
  have hpos := idxPt_inj m s.1 t.1 hs1 ht1 hidx
  have hdir : s.2 = t.2 := by
    apply directionId_inj s.2 t.2 hs2 ht2
    rw [hks, hkt, hkeq]
  exact Prod.ext hpos hdir

theorem patrolled_length_le (m : Grid Cell06) (l : List (Point × Point))
    (hnd : l.Nodup)
    (hv : ∀ s ∈ l, m.validPt s.1 = true ∧ s.2 ∈ dirs4) :
    l.length ≤ 4 * m.size := by
  classical
  have hcard : l.toFinset.card = l.length := List.toFinset_card_of_nodup hnd
  rw [← hcard]
  have himg : l.toFinset.image (stateCode m) ⊆ Finset.range (4 * m.size) := by
    intro x hx
    rw [Finset.mem_image] at hx
    obtain ⟨s, hs, hcode⟩ := hx
    rw [List.mem_toFinset] at hs
    obtain ⟨h1, h2⟩ := hv s hs
    rw [Finset.mem_range, ← hcode]
    exact stateCode_lt m s h1 h2
  have hinj : Set.InjOn (stateCode m) l.toFinset := by
    intro s hs t ht h
    rw [Finset.mem_coe, List.mem_toFinset] at hs ht
    obtain ⟨hs1, hs2⟩ := hv s hs
    obtain ⟨ht1, ht2⟩ := hv t ht
    exact stateCode_inj m s t hs1 hs2 ht1 ht2 h
  calc l.toFinset.card = (l.toFinset.image (stateCode m)).card :=
        (Finset.card_image_of_injOn hinj).symm
    _ ≤ (Finset.range (4 * m.size)).card := Finset.card_le_card himg
    _ = 4 * m.size := Finset.card_range _

theorem listInsert_of_not_mem {β : Type} [DecidableEq β] (x : β) (l : List β)
    (h : x ∉ l) : listInsert x l = x :: l := by
  unfold listInsert
  rw [if_neg h]

theorem mem_listInsert {β : Type} [DecidableEq β] (a x : β) (l : List β) :
    a ∈ listInsert x l ↔ a = x ∨ a ∈ l := by
  unfold listInsert
  by_cases h : x ∈ l
  · rw [if_pos h]
    constructor
    · exact Or.inr
    · rintro (rfl | ha)
      · exact h
      · exact ha
  · rw [if_neg h]
    exact List.mem_cons

theorem listInsert_nodup {β : Type} [DecidableEq β] (x : β) (l : List β)
    (h : l.Nodup) : (listInsert x l).Nodup := by
  unfold listInsert
  by_cases hm : x ∈ l
  · rwa [if_pos hm]
  · rw [if_neg hm]
    exact List.nodup_cons.mpr ⟨hm, h⟩

/-- Termination of the slow patrol: with the patrolled set made only of
valid states and the loop given one more unit of fuel than the size of
the whole state space, the patrol returns a verdict. -/
theorem patrolSlowAux_isSome (m : Grid Cell06) (hwf : m.Wellformed) :
    ∀ (fuel : Nat) (P : List (Point × Point)) (locs : List Point) (g d : Point),
      P.Nodup → (∀ s ∈ P, m.validPt s.1 = true ∧ s.2 ∈ dirs4) →
      m.validPt g = true → d ∈ dirs4 →
      4 * m.size < fuel + P.length →
      (patrolSlowAux m fuel P locs g d).isSome = true := by
  intro fuel
  induction fuel with
  | zero =>
    intro P locs g d hnd hv _ _ hlt
    have := patrolled_length_le m P hnd hv
    omega
  | succ fuel ih =>
    intro P locs g d hnd hv hg hd hlt
    unfold patrolSlowAux
    by_cases hmem : (g, d) ∈ P
    · rw [if_pos hmem]
      rfl
    · rw [if_neg hmem]
      have hinv2 : ∀ s ∈ listInsert (g, d) P, m.validPt s.1 = true ∧ s.2 ∈ dirs4 := by
        intro s hs
        rcases (mem_listInsert s (g, d) P).mp hs with rfl | hs
        · exact ⟨hg, hd⟩
        · exact hv s hs
      have hnd2 : (listInsert (g, d) P).Nodup := listInsert_nodup _ _ hnd
      have hlen2 : (listInsert (g, d) P).length = P.length + 1 := by
        rw [listInsert_of_not_mem _ _ hmem]
        rfl
      split
      · rename_i ahead hstep
        obtain ⟨hvalid, _⟩ := stepPt_valid m g d ahead hstep
        have hsome := getPt_isSome_of_valid m hwf ahead hvalid
        split
        · exact ih _ _ ahead d hnd2 hinv2 hvalid hd (by omega)
        · exact ih _ _ g (d.rotate_90_clockwise) hnd2 hinv2 hg
            (dirs4_rotate d hd) (by omega)
        · rename_i hget
          rw [hget] at hsome
          simp at hsome
      · rfl

/-! ## Trace lemmas for the loop-detection semantics -/

theorem patrolStep_eq_move (m : Grid Cell06) (g d ahead : Point)
    (hstep : m.stepPt g d = some ahead)
    (hget : m.getPt ahead = some Cell06.empty) :
    patrolStep m (g, d) = some (ahead, d) := by
  unfold patrolStep
  rw [hstep]
  show (if m.getPt ahead = some Cell06.empty then some (ahead, d)
    else some (g, d.rotate_90_clockwise)) = some (ahead, d)
  rw [if_pos hget]

theorem patrolStep_eq_rotate (m : Grid Cell06) (g d ahead : Point)
    (hstep : m.stepPt g d = some ahead)
    (hne : m.getPt ahead ≠ some Cell06.empty) :
    patrolStep m (g, d) = some (g, d.rotate_90_clockwise) := by
  unfold patrolStep
  rw [hstep]
  show (if m.getPt ahead = some Cell06.empty then some (ahead, d)
    else some (g, d.rotate_90_clockwise)) = some (g, d.rotate_90_clockwise)
  rw [if_neg hne]

theorem patrolStep_eq_none (m : Grid Cell06) (g d : Point)
    (hstep : m.stepPt g d = none) :
    patrolStep m (g, d) = none := by
  unfold patrolStep
  rw [hstep]

theorem patrolTrace_succ_of_step (m : Grid Cell06) (s s2 : Point × Point)
    (h : patrolStep m s = some s2) :
    ∀ k, patrolTrace m s (k + 1) = patrolTrace m s2 k := by
  intro k
  induction k with
  | zero =>
    unfold patrolTrace
    rw [show patrolTrace m s 0 = some s from rfl]
    simp [h]
  | succ k ihk =>
    show (patrolTrace m s (k + 1)).bind (patrolStep m)
      = (patrolTrace m s2 k).bind (patrolStep m)
    rw [ihk]

theorem patrolTrace_add (m : Grid Cell06) (s : Point × Point) (a b : Nat) :
    patrolTrace m s (a + b)
      = (patrolTrace m s a).bind (fun t => patrolTrace m t b) := by
  induction b with
  | zero =>
    cases h : patrolTrace m s a with
    | none => simp [h]
    | some t => simp [h, patrolTrace]
  | succ b ihb =>
    show (patrolTrace m s (a + b)).bind (patrolStep m) = _
    rw [ihb]
    cases h : patrolTrace m s a with
    | none => simp
    | some t =>
      simp only [Option.some_bind]
      rfl

theorem patrolTrace_isSome_mono (m : Grid Cell06) (s : Point × Point)
    (j k : Nat) (hk : k ≤ j) (hj : (patrolTrace m s j).isSome = true) :
    (patrolTrace m s k).isSome = true := by
  obtain ⟨b, rfl⟩ := Nat.exists_eq_add_of_le hk
  rw [patrolTrace_add] at hj
  cases h : patrolTrace m s k with
  | none => rw [h] at hj; simp at hj
  | some t => rfl

/-- Determinism consequence: once a state of the trace recurs, the
trace is total (the agent can never leave the grid afterwards). -/
theorem trace_repeat_no_exit (m : Grid Cell06) (s0 : Point × Point)
    (i j : Nat) (hij : i < j) (s : Point × Point)
    (hi : patrolTrace m s0 i = some s) (hj : patrolTrace m s0 j = some s) :
    ∀ k, (patrolTrace m s0 k).isSome = true := by
  have hshift : ∀ b, patrolTrace m s0 (i + b) = patrolTrace m s0 (j + b) := by
    intro b
    rw [patrolTrace_add, patrolTrace_add, hi, hj]
  intro k
  induction k using Nat.strong_induction_on with
  | _ k ihk =>
    by_cases hkj : k < j
    · exact patrolTrace_isSome_mono m s0 j k (by omega) (by rw [hj]; rfl)
    · have hb : k = j + (k - j) := by omega
      rw [hb, ← hshift]
      exact ihk (i + (k - j)) (by omega)

/-- Verdict "no loop" arises only from the agent stepping off the grid:
a `false` result of the slow patrol exhibits an exit of the transition
trace. -/
theorem patrolSlowAux_false_exit (m : Grid Cell06) :
    ∀ (fuel : Nat) (P : List (Point × Point)) (locs : List Point) (g d : Point)
      (out : List Point),
      patrolSlowAux m fuel P locs g d = some (out, false) →
      ∃ k s, patrolTrace m (g, d) k = some s ∧ patrolStep m s = none := by
  intro fuel
  induction fuel with
  | zero =>
    intro P locs g d out h
    exact absurd h (by simp [patrolSlowAux])
  | succ fuel ih =>
    intro P locs g d out h
    unfold patrolSlowAux at h
    by_cases hmem : (g, d) ∈ P
    · rw [if_pos hmem] at h
      simp at h
    · rw [if_neg hmem] at h
      split at h
      · rename_i ahead hstep
        split at h
        · rename_i hget
          obtain ⟨k, s, hk, hs⟩ := ih _ _ ahead d out h
          refine ⟨k + 1, s, ?_, hs⟩
          rw [patrolTrace_succ_of_step m (g, d) (ahead, d)
            (patrolStep_eq_move m g d ahead hstep hget)]
          exact hk
        · rename_i hget
          obtain ⟨k, s, hk, hs⟩ := ih _ _ g (d.rotate_90_clockwise) out h
          refine ⟨k + 1, s, ?_, hs⟩
          rw [patrolTrace_succ_of_step m (g, d) (g, d.rotate_90_clockwise)
            (patrolStep_eq_rotate m g d ahead hstep (by rw [hget]; intro hc; cases hc))]
          exact hk
        · exact absurd h (by simp)
      · rename_i hstep
        exact ⟨0, (g, d), rfl, patrolStep_eq_none m g d hstep⟩

/-- Verdict "loop" arises only from a repeated state of the transition
trace: a `true` result of the slow patrol exhibits two distinct ticks
reaching the same state, provided the patrolled set on entry holds
exactly the states of the trace prefix. -/
theorem patrolSlowAux_true_repeat (m : Grid Cell06) (s0 : Point × Point) :
    ∀ (fuel : Nat) (P : List (Point × Point)) (locs : List Point) (g d : Point)
      (n : Nat) (out : List Point),
      (∀ s, s ∈ P ↔ ∃ i, i < n ∧ patrolTrace m s0 i = some s) →
      patrolTrace m s0 n = some (g, d) →
      patrolSlowAux m fuel P locs g d = some (out, true) →
      ∃ i j s, i < j ∧ patrolTrace m s0 i = some s ∧ patrolTrace m s0 j = some s := by
  intro fuel
  induction fuel with
  | zero =>
    intro P locs g d n out _ _ h
    exact absurd h (by simp [patrolSlowAux])
  | succ fuel ih =>
    intro P locs g d n out hP hn h
    unfold patrolSlowAux at h
    by_cases hmem : (g, d) ∈ P
    · obtain ⟨i, hi, htr⟩ := (hP (g, d)).mp hmem
      exact ⟨i, n, (g, d), hi, htr, hn⟩
    · rw [if_neg hmem] at h
      have hP2 : ∀ s, s ∈ listInsert (g, d) P
          ↔ ∃ i, i < n + 1 ∧ patrolTrace m s0 i = some s := by
        intro s
        rw [mem_listInsert]
        constructor
        · rintro (rfl | hs)
          · exact ⟨n, by omega, hn⟩
          · obtain ⟨i, hi, htr⟩ := (hP s).mp hs
            exact ⟨i, by omega, htr⟩
        · rintro ⟨i, hi, htr⟩
          by_cases hin : i < n
          · exact Or.inr ((hP s).mpr ⟨i, hin, htr⟩)
          · have : i = n := by omega
            subst this
            rw [hn] at htr
            cases htr
            exact Or.inl rfl
      split at h
      · rename_i ahead hstep
        split at h
        · rename_i hget
          apply ih _ _ ahead d (n + 1) out hP2 _ h
          show (patrolTrace m s0 n).bind (patrolStep m) = some (ahead, d)
          rw [hn]
          simpa using patrolStep_eq_move m g d ahead hstep hget
        · rename_i hget
          apply ih _ _ g (d.rotate_90_clockwise) (n + 1) out hP2 _ h
          show (patrolTrace m s0 n).bind (patrolStep m) = some _
          rw [hn]
          simpa using patrolStep_eq_rotate m g d ahead hstep
            (by rw [hget]; intro hc; cases hc)
        · exact absurd h (by simp)
      · simp at h

/-! ## Step equations of the two patrol loops -/

theorem patrolSlowAux_loop (m : Grid Cell06) (fuel : Nat) (P : List (Point × Point))
    (locs : List Point) (g d : Point) (hmem : (g, d) ∈ P) :
    patrolSlowAux m (fuel + 1) P locs g d = some (locs, true) := by
  unfold patrolSlowAux
  rw [if_pos hmem]

theorem patrolSlowAux_exit (m : Grid Cell06) (fuel : Nat) (P : List (Point × Point))
    (locs : List Point) (g d : Point) (hmem : (g, d) ∉ P)
    (hstep : m.stepPt g d = none) :
    patrolSlowAux m (fuel + 1) P locs g d = some (listInsert g locs, false) := by
  unfold patrolSlowAux
  rw [if_neg hmem]
  split
  · rename_i ahead heq
    rw [hstep] at heq
    cases heq
  · rfl

theorem patrolSlowAux_move (m : Grid Cell06) (fuel : Nat) (P : List (Point × Point))
    (locs : List Point) (g d ahead : Point) (hmem : (g, d) ∉ P)
    (hstep : m.stepPt g d = some ahead)
    (hget : m.getPt ahead = some Cell06.empty) :
    patrolSlowAux m (fuel + 1) P locs g d
      = patrolSlowAux m fuel (listInsert (g, d) P) (listInsert g locs) ahead d := by
  rw [patrolSlowAux]
  rw [if_neg hmem]
  split
  · rename_i ahead2 heq
    rw [hstep] at heq
    injection heq with heq
    subst heq
    split
    · rfl
    · rename_i hget2
      rw [hget] at hget2
      cases hget2
    · rename_i hget2
      rw [hget] at hget2
      cases hget2
  · rename_i heq
    rw [hstep] at heq
    cases heq

theorem patrolSlowAux_rotate (m : Grid Cell06) (fuel : Nat) (P : List (Point × Point))
    (locs : List Point) (g d ahead : Point) (hmem : (g, d) ∉ P)
    (hstep : m.stepPt g d = some ahead)
    (hget : m.getPt ahead = some Cell06.obstruction) :
    patrolSlowAux m (fuel + 1) P locs g d
      = patrolSlowAux m fuel (listInsert (g, d) P) (listInsert g locs) g
          (d.rotate_90_clockwise) := by
  rw [patrolSlowAux]
  rw [if_neg hmem]
  split
  · rename_i ahead2 heq
    rw [hstep] at heq
    injection heq with heq
    subst heq
    split
    · rename_i hget2
      rw [hget] at hget2
      cases hget2
    · rfl
    · rename_i hget2
      rw [hget] at hget2
      cases hget2
  · rename_i heq
    rw [hstep] at heq
    cases heq

theorem patrolFastAux_read (m : Grid Cell06) (fuel : Nat) (tbl : List (List Bool))
    (g d : Point) (did : Nat) (loc : List Bool) (flag : Bool)
    (hdid : directionId d = some did)
    (hloc : tbl.get? (m.idxPt g) = some loc)
    (hflag : loc.get? did = some flag) :
    patrolFastAux m (fuel + 1) tbl g d
      = if flag then some (tbl, true)
        else
          match m.stepPt g d with
          | some ahead =>
            match m.uncheckedGetPt ahead with
            | some Cell06.empty =>
              patrolFastAux m fuel (tbl.set (m.idxPt g) (loc.set did true)) ahead d
            | some Cell06.obstruction =>
              patrolFastAux m fuel (tbl.set (m.idxPt g) (loc.set did true)) g
                (d.rotate_90_clockwise)
            | none => none
          | none => some (tbl.set (m.idxPt g) (loc.set did true), false) := by
  rw [patrolFastAux]
  split
  · rename_i heq
    rw [hdid] at heq
    cases heq
  · rename_i did2 heq
    rw [hdid] at heq
    injection heq with heq
    subst heq
    split
    · rename_i heq2
      rw [hloc] at heq2
      cases heq2
    · rename_i loc2 heq2
      rw [hloc] at heq2
      injection heq2 with heq2
      subst heq2
      split
      · rename_i heq3
        rw [hflag] at heq3
        cases heq3
      · rename_i flag2 heq3
        rw [hflag] at heq3
        injection heq3 with heq3
        subst heq3
        rfl

theorem patrolFastAux_loop (m : Grid Cell06) (fuel : Nat) (tbl : List (List Bool))
    (g d : Point) (did : Nat) (loc : List Bool)
    (hdid : directionId d = some did)
    (hloc : tbl.get? (m.idxPt g) = some loc)
    (hflag : loc.get? did = some true) :
    patrolFastAux m (fuel + 1) tbl g d = some (tbl, true) := by
  rw [patrolFastAux_read m fuel tbl g d did loc true hdid hloc hflag]
  rfl

theorem patrolFastAux_exit (m : Grid Cell06) (fuel : Nat) (tbl : List (List Bool))
    (g d : Point) (did : Nat) (loc : List Bool)
    (hdid : directionId d = some did)
    (hloc : tbl.get? (m.idxPt g) = some loc)
    (hflag : loc.get? did = some false)
    (hstep : m.stepPt g d = none) :
    patrolFastAux m (fuel + 1) tbl g d
      = some (tbl.set (m.idxPt g) (loc.set did true), false) := by
  rw [patrolFastAux_read m fuel tbl g d did loc false hdid hloc hflag]
  show (match m.stepPt g d with
    | some ahead =>
      match m.uncheckedGetPt ahead with
      | some Cell06.empty =>
        patrolFastAux m fuel (tbl.set (m.idxPt g) (loc.set did true)) ahead d
      | some Cell06.obstruction =>
        patrolFastAux m fuel (tbl.set (m.idxPt g) (loc.set did true)) g
          (d.rotate_90_clockwise)
      | none => none
    | none => some (tbl.set (m.idxPt g) (loc.set did true), false))
    = some (tbl.set (m.idxPt g) (loc.set did true), false)
  rw [hstep]

theorem patrolFastAux_move (m : Grid Cell06) (fuel : Nat) (tbl : List (List Bool))
    (g d ahead : Point) (did : Nat) (loc : List Bool)
    (hdid : directionId d = some did)
    (hloc : tbl.get? (m.idxPt g) = some loc)
    (hflag : loc.get? did = some false)
    (hstep : m.stepPt g d = some ahead)
    (hget : m.uncheckedGetPt ahead = some Cell06.empty) :
    patrolFastAux m (fuel + 1) tbl g d
      = patrolFastAux m fuel (tbl.set (m.idxPt g) (loc.set did true)) ahead d := by
  rw [patrolFastAux_read m fuel tbl g d did loc false hdid hloc hflag]
  show (match m.stepPt g d with
    | some ahead =>
      match m.uncheckedGetPt ahead with
      | some Cell06.empty =>
        patrolFastAux m fuel (tbl.set (m.idxPt g) (loc.set did true)) ahead d
      | some Cell06.obstruction =>
        patrolFastAux m fuel (tbl.set (m.idxPt g) (loc.set did true)) g
          (d.rotate_90_clockwise)
      | none => none
    | none => some (tbl.set (m.idxPt g) (loc.set did true), false)) = _
  split
  · rename_i ahead2 heq
    rw [hstep] at heq
    injection heq with heq
    subst heq
    split
    · rfl
    · rename_i hget2
      rw [hget] at hget2
      cases hget2
    · rename_i hget2
      rw [hget] at hget2
      cases hget2
  · rename_i heq
    rw [hstep] at heq
    cases heq

theorem patrolFastAux_rotate (m : Grid Cell06) (fuel : Nat) (tbl : List (List Bool))
    (g d ahead : Point) (did : Nat) (loc : List Bool)
    (hdid : directionId d = some did)
    (hloc : tbl.get? (m.idxPt g) = some loc)
    (hflag : loc.get? did = some false)
    (hstep : m.stepPt g d = some ahead)
    (hget : m.uncheckedGetPt ahead = some Cell06.obstruction) :
    patrolFastAux m (fuel + 1) tbl g d
      = patrolFastAux m fuel (tbl.set (m.idxPt g) (loc.set did true)) g
          (d.rotate_90_clockwise) := by
  rw [patrolFastAux_read m fuel tbl g d did loc false hdid hloc hflag]
  show (match m.stepPt g d with
    | some ahead =>
      match m.uncheckedGetPt ahead with
      | some Cell06.empty =>
        patrolFastAux m fuel (tbl.set (m.idxPt g) (loc.set did true)) ahead d
      | some Cell06.obstruction =>
        patrolFastAux m fuel (tbl.set (m.idxPt g) (loc.set did true)) g
          (d.rotate_90_clockwise)
      | none => none
    | none => some (tbl.set (m.idxPt g) (loc.set did true), false)) = _
  split
  · rename_i ahead2 heq
    rw [hstep] at heq
    injection heq with heq
    subst heq
    split
    · rename_i hget2
      rw [hget] at hget2
      cases hget2
    · rfl
    · rename_i hget2
      rw [hget] at hget2
      cases hget2
  · rename_i heq
    rw [hstep] at heq
    cases heq

/-! ## The slow/fast refinement invariant -/

theorem tableEntry_eq (m : Grid Cell06) (tbl : List (List Bool)) (p dd : Point)
    (row : List Bool) (k : Nat)
    (hrow : tbl.get? (m.idxPt p) = some row)
    (hk : directionId dd = some k) :
    tableEntry m tbl p dd = (row.get? k).getD false := by
  unfold tableEntry
  rw [hrow, hk]

theorem tableEntry_congr_row (m : Grid Cell06) (tbl1 tbl2 : List (List Bool))
    (p dd : Point) (h : tbl2.get? (m.idxPt p) = tbl1.get? (m.idxPt p)) :
    tableEntry m tbl2 p dd = tableEntry m tbl1 p dd := by
  unfold tableEntry
  rw [h]

theorem patrolInv_mark (m : Grid Cell06) (g0 : Point)
    (P : List (Point × Point)) (locs : List Point) (tbl : List (List Bool))
    (g d : Point) (did : Nat) (loc : List Bool)
    (inv : PatrolInv m g0 P locs tbl)
    (hg : m.validPt g = true) (hd : d ∈ dirs4)
    (hgE : g = g0 ∨ m.getPt g = some Cell06.empty)
    (hdid : directionId d = some did)
    (hloc : tbl.get? (m.idxPt g) = some loc) :
    PatrolInv m g0 (listInsert (g, d) P) (listInsert g locs)
      (tbl.set (m.idxPt g) (loc.set did true)) := by
  have hlocmem : loc ∈ tbl := List.get?_mem hloc
  have hloclen : loc.length = 4 := inv.rows loc hlocmem
  have hdid4 : did < 4 := by
    obtain ⟨k, hk, hk4⟩ := directionId_of_dirs4 d hd
    rw [hdid] at hk
    injection hk with hk
    omega
  have hdidloc : did < loc.length := by omega
  have hidxlt : m.idxPt g < tbl.length := by
    obtain ⟨h, _⟩ := List.get?_eq_some.mp hloc
    exact h
  constructor
  · rw [List.length_set]
    exact inv.tlen
  · intro row hrow
    rcases List.mem_or_eq_of_mem_set hrow with h | h
    · exact inv.rows row h
    · rw [h, List.length_set]
      exact hloclen
  · intro p dd hp hdd
    obtain ⟨k, hk, hk4⟩ := directionId_of_dirs4 dd hdd
    rw [mem_listInsert]
    by_cases hpi : m.idxPt p = m.idxPt g
    · have hpg : p = g := idxPt_inj m p g hp hg hpi
      rcases hpg with rfl
      have hrow2 : (tbl.set (m.idxPt p) (loc.set did true)).get? (m.idxPt p)
          = some (loc.set did true) := by
        rw [List.get?_eq_getElem?]
        exact List.getElem?_set_self hidxlt
      rw [tableEntry_eq m _ p dd (loc.set did true) k hrow2 hk]
      by_cases hkd : k = did
      · rcases hkd with rfl
        have hdde : dd = d := by
          apply directionId_inj dd d hdd hd
          rw [hk, hdid]
        rcases hdde with rfl
        have hset : (loc.set k true).get? k = some true := by
          rw [List.get?_eq_getElem?]
          exact List.getElem?_set_self (by omega)
        rw [hset]
        simp
      · have hdde : dd ≠ d := by
          intro h
          rcases h with rfl
          rw [hdid] at hk
          injection hk with hk
          exact hkd hk.symm
        have hset : (loc.set did true).get? k = loc.get? k := by
          rw [List.get?_eq_getElem?, List.get?_eq_getElem?]
          exact List.getElem?_set_ne (fun h => hkd h.symm)
        rw [hset]
        rw [← tableEntry_eq m tbl p dd loc k hloc hk]
        rw [← inv.entry p dd hp hdd]
        constructor
        · rintro (heq | hmem2)
          · exfalso
            apply hdde
            have := congrArg Prod.snd heq
            exact this
          · exact hmem2
        · exact Or.inr
    · have hpg : p ≠ g := fun h => hpi (by rw [h])
      have hrow2 : (tbl.set (m.idxPt g) (loc.set did true)).get? (m.idxPt p)
          = tbl.get? (m.idxPt p) := by
        rw [List.get?_eq_getElem?, List.get?_eq_getElem?]
        exact List.getElem?_set_ne (fun h => hpi h.symm)
      rw [tableEntry_congr_row m tbl _ p dd hrow2]
      rw [← inv.entry p dd hp hdd]
      constructor
      · rintro (heq | hmem2)
        · exfalso
          apply hpg
          have := congrArg Prod.fst heq
          exact this
        · exact hmem2
      · exact Or.inr
  · intro s hs
    rcases (mem_listInsert s (g, d) P).mp hs with rfl | hs
    · exact ⟨hg, hd⟩
    · exact inv.pvalid s hs
  · intro p
    rw [mem_listInsert]
    constructor
    · rintro (rfl | hp)
      · exact ⟨d, (mem_listInsert _ _ _).mpr (Or.inl rfl)⟩
      · obtain ⟨dd, hdd⟩ := (inv.locIff p).mp hp
        exact ⟨dd, (mem_listInsert _ _ _).mpr (Or.inr hdd)⟩
    · rintro ⟨dd, hdd⟩
      rcases (mem_listInsert _ _ _).mp hdd with heq | hmem2
      · left
        have := congrArg Prod.fst heq
        exact this
      · exact Or.inr ((inv.locIff p).mpr ⟨dd, hmem2⟩)
  · exact listInsert_nodup _ _ inv.locNd
  · intro p hp
    rcases (mem_listInsert p g locs).mp hp with rfl | hp
    · exact hgE
    · exact inv.locEmpty p hp

theorem patrolInv_init (m : Grid Cell06) (g0 : Point) :
    PatrolInv m g0 [] [] (List.replicate m.size (List.replicate 4 false)) := by
  constructor
  · exact List.length_replicate _ _
  · intro row hrow
    rw [List.eq_of_mem_replicate hrow]
    exact List.length_replicate _ _
  · intro p dd hp hdd
    obtain ⟨k, hk, hk4⟩ := directionId_of_dirs4 dd hdd
    have hidx : m.idxPt p < m.size := idxPt_lt_size m p hp
    have hrow : (List.replicate m.size (List.replicate 4 false)).get? (m.idxPt p)
        = some (List.replicate 4 false) := by
      rw [List.get?_eq_getElem?, List.getElem?_replicate]
      rw [if_pos hidx]
    have hcell : (List.replicate 4 false).get? k = some false := by
      rw [List.get?_eq_getElem?, List.getElem?_replicate, if_pos hk4]
    rw [tableEntry_eq m _ p dd (List.replicate 4 false) k hrow hk, hcell]
    constructor
    · intro h
      cases h
    · intro h
      cases h
  · intro s hs
    cases hs
  · intro p
    constructor
    · intro h
      cases h
    · rintro ⟨dd, hdd⟩
      cases hdd
  · exact List.nodup_nil
  · intro p hp
    cases hp

/-- The slow and the fast patrol loops simulate each other step by
step: run with the same fuel they either both run out, or both return,
with the same verdict and with the refinement invariant tying the two
patrolled-set representations together. -/
theorem patrolEquivAux (m : Grid Cell06) (hwf : m.Wellformed) (g0 : Point) :
    ∀ (fuel : Nat) (P : List (Point × Point)) (locs : List Point)
      (tbl : List (List Bool)) (g d : Point),
      PatrolInv m g0 P locs tbl →
      m.validPt g = true → d ∈ dirs4 →
      (g = g0 ∨ m.getPt g = some Cell06.empty) →
      (patrolSlowAux m fuel P locs g d = none ∧ patrolFastAux m fuel tbl g d = none)
      ∨ (∃ P2 locs2 tbl2 b,
          patrolSlowAux m fuel P locs g d = some (locs2, b)
          ∧ patrolFastAux m fuel tbl g d = some (tbl2, b)
          ∧ PatrolInv m g0 P2 locs2 tbl2) := by
  intro fuel
  induction fuel with
  | zero =>
    intro P locs tbl g d _ _ _ _
    exact Or.inl ⟨rfl, rfl⟩
  | succ fuel ih =>
    intro P locs tbl g d inv hg hd hgE
    obtain ⟨did, hdid, hdid4⟩ := directionId_of_dirs4 d hd
    have hidxlt : m.idxPt g < tbl.length := by
      rw [inv.tlen]
      exact idxPt_lt_size m g hg
    obtain ⟨loc, hloc⟩ : ∃ loc, tbl.get? (m.idxPt g) = some loc :=
      ⟨tbl.get ⟨m.idxPt g, hidxlt⟩, List.get?_eq_get hidxlt⟩
    have hloclen : loc.length = 4 := inv.rows loc (List.get?_mem hloc)
    obtain ⟨flag, hflag⟩ : ∃ flag, loc.get? did = some flag :=
      ⟨loc.get ⟨did, by omega⟩, List.get?_eq_get (by omega)⟩
    have hentry : tableEntry m tbl g d = flag := by
      rw [tableEntry_eq m tbl g d loc did hloc hdid, hflag]
      rfl
    by_cases hmem : (g, d) ∈ P
    · have hft : flag = true := by
        have := (inv.entry g d hg hd).mp hmem
        rw [hentry] at this
        exact this
      subst hft
      right
      exact ⟨P, locs, tbl, true,
        patrolSlowAux_loop m fuel P locs g d hmem,
        patrolFastAux_loop m fuel tbl g d did loc hdid hloc hflag,
        inv⟩
    · have hff : flag = false := by
        cases hf : flag
        · rfl
        · exfalso
          apply hmem
          apply (inv.entry g d hg hd).mpr
          rw [hentry, hf]
      subst hff
      have inv2 := patrolInv_mark m g0 P locs tbl g d did loc inv hg hd hgE hdid hloc
      cases hstep : m.stepPt g d with
      | none =>
        right
        exact ⟨listInsert (g, d) P, listInsert g locs,
          tbl.set (m.idxPt g) (loc.set did true), false,
          patrolSlowAux_exit m fuel P locs g d hmem hstep,
          patrolFastAux_exit m fuel tbl g d did loc hdid hloc hflag hstep,
          inv2⟩
      | some ahead =>
        obtain ⟨hvalid, _⟩ := stepPt_valid m g d ahead hstep
        have hgsome := getPt_isSome_of_valid m hwf ahead hvalid
        cases hget : m.getPt ahead with
        | none =>
          rw [hget] at hgsome
          simp at hgsome
        | some c =>
          have hug : m.uncheckedGetPt ahead = some c := by
            rw [uncheckedGetPt_eq_getPt m ahead hvalid, hget]
          cases c with
          | empty =>
            have hrec := ih (listInsert (g, d) P) (listInsert g locs)
              (tbl.set (m.idxPt g) (loc.set did true)) ahead d inv2 hvalid hd (Or.inr hget)
            rw [patrolSlowAux_move m fuel P locs g d ahead hmem hstep hget]
            rw [patrolFastAux_move m fuel tbl g d ahead did loc hdid hloc hflag hstep hug]
            exact hrec
          | obstruction =>
            have hrec := ih (listInsert (g, d) P) (listInsert g locs)
              (tbl.set (m.idxPt g) (loc.set did true)) g (d.rotate_90_clockwise) inv2 hg
              (dirs4_rotate d hd) hgE
            rw [patrolSlowAux_rotate m fuel P locs g d ahead hmem hstep hget]
            rw [patrolFastAux_rotate m fuel tbl g d ahead did loc hdid hloc hflag hstep hug]
            exact hrec

theorem patrolSlow_def (m : Grid Cell06) (g : Point) :
    patrolSlow m g = patrolSlowAux m (4 * m.size + 1) [] [] g Point.north := rfl

theorem patrolFast_def (m : Grid Cell06) (g : Point) :
    patrolFast m g
      = patrolFastAux m (4 * m.size + 1)
          (List.replicate m.size (List.replicate 4 false)) g Point.north := rfl

theorem exit_trace_none (m : Grid Cell06) (s0 : Point × Point) (k : Nat)
    (s : Point × Point) (hk : patrolTrace m s0 k = some s)
    (hs : patrolStep m s = none) : patrolTrace m s0 (k + 1) = none := by
  show (patrolTrace m s0 k).bind (patrolStep m) = none
  rw [hk]
  simpa using hs

/-- Bundling of termination, slow/fast verdict agreement, and the two
verdict characterizations, shared by the day06 claims. -/
theorem patrolBoth (m : Grid Cell06) (hwf : m.Wellformed)
    (guard : Point) (hg : m.validPt guard = true) :
    ∃ P2 locs b tbl,
      patrolSlow m guard = some (locs, b)
      ∧ patrolFast m guard = some (tbl, b)
      ∧ PatrolInv m guard P2 locs tbl
      ∧ ((∃ i j s, i < j ∧ patrolTrace m (guard, Point.north) i = some s
          ∧ patrolTrace m (guard, Point.north) j = some s) → b = true)
      ∧ ((∃ k s, patrolTrace m (guard, Point.north) k = some s
          ∧ patrolStep m s = none) → b = false) := by
  have hNorth : Point.north ∈ dirs4 := by decide
  have hterm := patrolSlowAux_isSome m hwf (4 * m.size + 1) [] [] guard Point.north
    List.nodup_nil (by intro s hs; cases hs) hg hNorth (by simp)
  have hequiv := patrolEquivAux m hwf guard (4 * m.size + 1) [] []
    (List.replicate m.size (List.replicate 4 false)) guard Point.north
    (patrolInv_init m guard) hg hNorth (Or.inl rfl)
  rcases hequiv with ⟨hs, _⟩ | ⟨P2, locs2, tbl2, b, hs, hf, inv2⟩
  · rw [hs] at hterm
    simp at hterm
  · refine ⟨P2, locs2, b, tbl2, ?_, ?_, inv2, ?_, ?_⟩
    · rw [patrolSlow_def]
      exact hs
    · rw [patrolFast_def]
      exact hf
    · rintro ⟨i, j, s, hij, hi, hj⟩
      cases hb : b
      · exfalso
        rw [hb] at hs
        obtain ⟨k, t, hk, ht⟩ := patrolSlowAux_false_exit m _ _ _ _ _ _ hs
        have hall := trace_repeat_no_exit m (guard, Point.north) i j hij s hi hj
        have hnone := exit_trace_none m (guard, Point.north) k t hk ht
        have := hall (k + 1)
        rw [hnone] at this
        exact absurd this (by decide)
      · rfl
    · rintro ⟨k, s, hk, hsn⟩
      cases hb : b
      · rfl
      · exfalso
        rw [hb] at hs
        have hP0 : ∀ s2 : Point × Point, s2 ∈ ([] : List (Point × Point))
            ↔ ∃ i2, i2 < 0 ∧ patrolTrace m (guard, Point.north) i2 = some s2 := by
          intro s2
          constructor
          · intro h2
            cases h2
          · rintro ⟨i2, hi2, _⟩
            omega
        obtain ⟨i, j, t, hij, hi, hj⟩ := patrolSlowAux_true_repeat m (guard, Point.north)
          _ _ _ _ _ 0 _ hP0 rfl hs
        have hall := trace_repeat_no_exit m (guard, Point.north) i j hij t hi hj
        have hnone := exit_trace_none m (guard, Point.north) k s hk hsn
        have := hall (k + 1)
        rw [hnone] at this
        exact absurd this (by decide)

/-! ## Relating the flag table to the visited-position set -/

theorem pointOfIndex_valid (m : Grid Cell06) (i : Nat) (hi : i < m.size) :
    m.validPt (pointOfIndex m i) = true := by
  have hcol : 0 < m.columns := by
    unfold Grid.size at hi
    rcases Nat.eq_zero_or_pos m.columns with h0 | h0
    · rw [h0, Nat.mul_zero] at hi
      exact absurd hi (Nat.not_lt_zero _)
    · exact h0
  have h1 : i / m.columns < m.lines := by
    unfold Grid.size at hi
    exact Nat.div_lt_of_lt_mul (by rw [Nat.mul_comm] at hi; exact hi)
  have h2 : i % m.columns < m.columns := Nat.mod_lt i hcol
  rw [validPt_iff]
  unfold pointOfIndex
  refine ⟨Int.ofNat_nonneg _, ?_, Int.ofNat_nonneg _, ?_⟩
  · show ((i / m.columns : Nat) : Int) < (m.lines : Int)
    exact_mod_cast h1
  · show ((i % m.columns : Nat) : Int) < (m.columns : Int)
    exact_mod_cast h2

theorem idxPt_pointOfIndex (m : Grid Cell06) (i : Nat) (hi : i < m.size) :
    m.idxPt (pointOfIndex m i) = i := by
  unfold Grid.idxPt pointOfIndex
  simp only [Int.toNat_ofNat]
  exact Nat.div_add_mod i m.columns

theorem pointOfIndex_idxPt (m : Grid Cell06) (p : Point)
    (hp : m.validPt p = true) : pointOfIndex m (m.idxPt p) = p := by
  have hidx : m.idxPt p < m.size := idxPt_lt_size m p hp
  apply idxPt_inj m _ p (pointOfIndex_valid m _ hidx) hp
  exact idxPt_pointOfIndex m _ hidx

theorem directionId_surj (k : Nat) (hk : k < 4) :
    ∃ dd, dd ∈ dirs4 ∧ directionId dd = some k := by
  interval_cases k
  · exact ⟨Point.north, by decide, by decide⟩
  · exact ⟨Point.east, by decide, by decide⟩
  · exact ⟨Point.south, by decide, by decide⟩
  · exact ⟨Point.west, by decide, by decide⟩

/-- For a table tied to the slow patrol's state by `PatrolInv`, a cell
row holds a flag exactly when the cell's position was visited. -/
theorem row_flag_iff_visited (m : Grid Cell06) (g0 : Point)
    (P : List (Point × Point)) (locs : List Point) (tbl : List (List Bool))
    (inv : PatrolInv m g0 P locs tbl) (i : Nat) (row : List Bool)
    (hrow : tbl.get? i = some row) (hi : i < m.size) :
    (row.any id = true ↔ pointOfIndex m i ∈ locs) := by
  have hrowlen : row.length = 4 := inv.rows row (List.get?_mem hrow)
  have hpv : m.validPt (pointOfIndex m i) = true := pointOfIndex_valid m i hi
  have hpidx : m.idxPt (pointOfIndex m i) = i := idxPt_pointOfIndex m i hi
  have hrow2 : tbl.get? (m.idxPt (pointOfIndex m i)) = some row := by
    rw [hpidx]
    exact hrow
  constructor
  · intro hany
    rw [List.any_eq_true] at hany
    obtain ⟨x, hx, hxt⟩ := hany
    have hxtrue : x = true := by
      cases x
      · cases hxt
      · rfl
    rcases hxtrue with rfl
    obtain ⟨k, hk⟩ := List.mem_iff_get?.mp hx
    have hk4 : k < 4 := by
      obtain ⟨h, _⟩ := List.get?_eq_some.mp hk
      omega
    obtain ⟨dd, hdd, hddk⟩ := directionId_surj k hk4
    have hentry : tableEntry m tbl (pointOfIndex m i) dd = true := by
      rw [tableEntry_eq m tbl _ dd row k hrow2 hddk, hk]
      rfl
    have hmem := (inv.entry (pointOfIndex m i) dd hpv hdd).mpr hentry
    exact (inv.locIff (pointOfIndex m i)).mpr ⟨dd, hmem⟩
  · intro hloc
    obtain ⟨dd, hdd⟩ := (inv.locIff (pointOfIndex m i)).mp hloc
    have hdd4 : dd ∈ dirs4 := (inv.pvalid _ hdd).2
    have hentry := (inv.entry (pointOfIndex m i) dd hpv hdd4).mp hdd
    obtain ⟨k, hddk, hk4⟩ := directionId_of_dirs4 dd hdd4
    rw [tableEntry_eq m tbl _ dd row k hrow2 hddk] at hentry
    have : row.get? k = some true := by
      cases hv : row.get? k with
      | none =>
        rw [hv] at hentry
        cases hentry
      | some x =>
        rw [hv] at hentry
        cases x
        · cases hentry
        · rfl
    rw [List.any_eq_true]
    exact ⟨true, List.mem_iff_get?.mpr ⟨k, this⟩, rfl⟩

theorem countP_range_get {β : Type} (p : β → Bool) :
    ∀ l : List β,
      l.countP p
        = (List.range l.length).countP
            (fun i =>
              match l.get? i with
              | some x => p x
              | none => false) := by
  intro l
  induction l with
  | nil => rfl
  | cons a t ih =>
    rw [List.countP_cons, List.length_cons, List.range_succ_eq_map]
    rw [List.countP_cons, List.countP_map]
    have hcomp : ((fun i =>
        match (a :: t).get? i with
        | some x => p x
        | none => false) ∘ Nat.succ)
        = (fun i =>
          match t.get? i with
          | some x => p x
          | none => false) := by
      funext i
      rfl
    rw [hcomp, ← ih]
    have h0 : (match (a :: t).get? 0 with
      | some x => p x
      | none => false) = p a := rfl
    rw [h0]

/-- Count of flagged rows equals the count of visited positions. -/
theorem flag_count_eq (m : Grid Cell06) (g0 : Point)
    (P : List (Point × Point)) (locs : List Point) (tbl : List (List Bool))
    (inv : PatrolInv m g0 P locs tbl) :
    (tbl.filter (fun loc => loc.any id)).length = locs.length := by
  classical
  have hlocvalid : ∀ p ∈ locs, m.validPt p = true := by
    intro p hp
    obtain ⟨dd, hdd⟩ := (inv.locIff p).mp hp
    exact (inv.pvalid _ hdd).1
  have hcount : tbl.countP (fun loc => loc.any id)
      = (List.range tbl.length).countP
          (fun i =>
            match tbl.get? i with
            | some x => x.any id
            | none => false) := by
    refine Eq.trans (countP_range_get (fun loc => loc.any id) tbl) ?_
    congr 1
    funext i
    cases tbl.get? i <;> rfl
  rw [← List.countP_eq_length_filter, hcount, List.countP_eq_length_filter]
  have hnodup : ((List.range tbl.length).filter
      (fun i =>
        match tbl.get? i with
        | some x => x.any id
        | none => false)).Nodup :=
    (List.nodup_range _).filter _
  rw [← List.toFinset_card_of_nodup hnodup, ← List.toFinset_card_of_nodup inv.locNd]
  have hset : ((List.range tbl.length).filter
      (fun i =>
        match tbl.get? i with
        | some x => x.any id
        | none => false)).toFinset
      = locs.toFinset.image (fun p => m.idxPt p) := by
    ext i
    rw [List.mem_toFinset, List.mem_filter, List.mem_range, Finset.mem_image]
    constructor
    · rintro ⟨hilt, hq⟩
      cases hrow : tbl.get? i with
      | none =>
        rw [hrow] at hq
        cases hq
      | some row =>
        rw [hrow] at hq
        have hi : i < m.size := by rw [← inv.tlen]; exact hilt
        have := (row_flag_iff_visited m g0 P locs tbl inv i row hrow hi).mp hq
        refine ⟨pointOfIndex m i, List.mem_toFinset.mpr this, idxPt_pointOfIndex m i hi⟩
    · rintro ⟨p, hp, rfl⟩
      rw [List.mem_toFinset] at hp
      have hpv := hlocvalid p hp
      have hidx : m.idxPt p < m.size := idxPt_lt_size m p hpv
      have hilt : m.idxPt p < tbl.length := by rw [inv.tlen]; exact hidx
      refine ⟨hilt, ?_⟩
      obtain ⟨row, hrow⟩ : ∃ row, tbl.get? (m.idxPt p) = some row :=
        ⟨tbl.get ⟨m.idxPt p, hilt⟩, List.get?_eq_get hilt⟩
      rw [hrow]
      apply (row_flag_iff_visited m g0 P locs tbl inv _ row hrow hidx).mpr
      rw [pointOfIndex_idxPt m p hpv]
      exact hp
  rw [hset]
  apply Finset.card_image_of_injOn
  intro p hp q hq h
  rw [Finset.mem_coe, List.mem_toFinset] at hp hq
  exact idxPt_inj m p q (hlocvalid p hp) (hlocvalid q hq) h

/-! ## The part-2 obstruction trials -/

theorem list_set_restore {β : Type} (l : List β) (i : Nat) (a b : β)
    (h : l.get? i = some a) : (l.set i b).set i a = l := by
  have hlen : i < l.length := by
    obtain ⟨hl, _⟩ := List.get?_eq_some.mp h
    exact hl
  apply List.ext_getElem?
  intro n
  by_cases hn : i = n
  · rcases hn with rfl
    rw [List.getElem?_set_self (by simpa using hlen)]
    rw [List.get?_eq_getElem?] at h
    exact h.symm
  · rw [List.getElem?_set_ne hn, List.getElem?_set_ne hn]

theorem setPt_grid (m : Grid Cell06) (p : Point) (v : Cell06)
    (hp : m.validPt p = true) :
    m.setPt p v = some (Grid.mk m.lines m.columns (m.items.set (m.idxPt p) v)) := by
  unfold Grid.setPt
  rw [if_pos hp]

theorem setAt_grid (m : Grid Cell06) (i : Nat) (v : Cell06)
    (hi : i < m.items.length) :
    m.setAt i v = some (Grid.mk m.lines m.columns (m.items.set i v)) := by
  unfold Grid.setAt
  rw [if_pos hi]

theorem part2FoldSlow_cons (m : Grid Cell06) (g p : Point) (t : List Point)
    (m1 m2 : Grid Cell06) (r : List Point × Bool)
    (hset : m.setPt p Cell06.obstruction = some m1)
    (hr : patrolSlow m1 g = some r)
    (hrestore : m1.setPt p Cell06.empty = some m2) :
    part2FoldSlow m g (p :: t)
      = (part2FoldSlow m2 g t).map (fun n => if r.2 then n + 1 else n) := by
  rw [part2FoldSlow]
  split
  · rename_i heq
    rw [hset] at heq
    cases heq
  · rename_i m1b heq
    rw [hset] at heq
    injection heq with heq
    subst heq
    split
    · rename_i heq2
      rw [hr] at heq2
      cases heq2
    · rename_i rb heq2
      rw [hr] at heq2
      injection heq2 with heq2
      subst heq2
      split
      · rename_i heq3
        rw [hrestore] at heq3
        cases heq3
      · rename_i m2b heq3
        rw [hrestore] at heq3
        injection heq3 with heq3
        subst heq3
        cases part2FoldSlow m2 g t <;> rfl

theorem part2FoldFast_cons (m : Grid Cell06) (g : Point) (i : Nat) (t : List Nat)
    (m1 m2 : Grid Cell06) (r : List (List Bool) × Bool)
    (hset : m.setAt i Cell06.obstruction = some m1)
    (hr : patrolFast m1 g = some r)
    (hrestore : m1.setAt i Cell06.empty = some m2) :
    part2FoldFast m g (i :: t)
      = (part2FoldFast m2 g t).map (fun n => if r.2 then n + 1 else n) := by
  rw [part2FoldFast]
  split
  · rename_i heq
    rw [hset] at heq
    cases heq
  · rename_i m1b heq
    rw [hset] at heq
    injection heq with heq
    subst heq
    split
    · rename_i heq2
      rw [hr] at heq2
      cases heq2
    · rename_i rb heq2
      rw [hr] at heq2
      injection heq2 with heq2
      subst heq2
      split
      · rename_i heq3
        rw [hrestore] at heq3
        cases heq3
      · rename_i m2b heq3
        rw [hrestore] at heq3
        injection heq3 with heq3
        subst heq3
        cases part2FoldFast m2 g t <;> rfl

/-- The slow part-2 fold computes the count of loop verdicts over the
candidate list, provided every candidate is a valid, empty cell (which
makes every trial run and restore the map exactly). -/
theorem part2FoldSlow_count (m : Grid Cell06) (hwf : m.Wellformed)
    (g : Point) (hg : m.validPt g = true) :
    ∀ l : List Point,
      (∀ p ∈ l, m.validPt p = true ∧ m.getPt p = some Cell06.empty) →
      part2FoldSlow m g l = some (l.countP (fun p => obstructedVerdictSlow m g p)) := by
  intro l
  induction l with
  | nil => intro _; rfl
  | cons p t ih =>
    intro hall
    obtain ⟨hpv, hpe⟩ := hall p (List.mem_cons_self p t)
    have hidx : m.idxPt p < m.items.length := by
      rw [hwf]
      exact idxPt_lt_size m p hpv
    have hitems : m.items.get? (m.idxPt p) = some Cell06.empty := by
      unfold Grid.getPt at hpe
      rw [hpv] at hpe
      simpa using hpe
    have hset := setPt_grid m p Cell06.obstruction hpv
    set m1 : Grid Cell06 := Grid.mk m.lines m.columns
      (m.items.set (m.idxPt p) Cell06.obstruction) with hm1
    have hwf1 : m1.Wellformed := by
      unfold Grid.Wellformed at hwf ⊢
      rw [hm1]
      simpa using hwf
    have hg1 : m1.validPt g = true := by
      rw [validPt_iff] at hg ⊢
      rw [hm1]
      exact hg
    have hterm := patrolSlowAux_isSome m1 hwf1 (4 * m1.size + 1) [] [] g Point.north
      List.nodup_nil (by intro s hs; cases hs) hg1 (by decide) (by simp)
    rw [← patrolSlow_def] at hterm
    obtain ⟨r, hr⟩ := Option.isSome_iff_exists.mp hterm
    have hm1valid : m1.validPt p = true := by
      rw [validPt_iff] at hpv ⊢
      rw [hm1]
      exact hpv
    have hrestore : m1.setPt p Cell06.empty = some m := by
      rw [setPt_grid m1 p Cell06.empty hm1valid]
      have hidx1 : m1.idxPt p = m.idxPt p := by rw [hm1]; rfl
      rw [hidx1, hm1]
      have : (m.items.set (m.idxPt p) Cell06.obstruction).set (m.idxPt p) Cell06.empty
          = m.items := list_set_restore m.items (m.idxPt p) Cell06.empty
            Cell06.obstruction hitems
      simp only [this]
    rw [part2FoldSlow_cons m g p t m1 m r hset hr hrestore]
    rw [ih (fun q hq => hall q (List.mem_cons_of_mem p hq))]
    rw [List.countP_cons]
    have hverdict : obstructedVerdictSlow m g p = r.2 := by
      unfold obstructedVerdictSlow
      split
      · rename_i heq
        rw [hset] at heq
        cases heq
      · rename_i m1b heq
        rw [hset] at heq
        injection heq with heq
        subst heq
        split
        · rename_i heq2
          rw [hr] at heq2
          cases heq2
        · rename_i rb heq2
          rw [hr] at heq2
          injection heq2 with heq2
          subst heq2
          rfl
    rw [hverdict]
    cases r.2
    · simp
    · simp [Nat.add_comm]

/-- The fast part-2 fold computes the count of loop verdicts over the
candidate index list, provided every candidate indexes a cell holding
empty. -/
theorem part2FoldFast_count (m : Grid Cell06) (hwf : m.Wellformed)
    (g : Point) (hg : m.validPt g = true) :
    ∀ il : List Nat,
      (∀ i ∈ il, i < m.items.length ∧ m.items.get? i = some Cell06.empty) →
      part2FoldFast m g il
        = some (il.countP (fun i => obstructedVerdictFast m g i)) := by
  intro il
  induction il with
  | nil => intro _; rfl
  | cons i t ih =>
    intro hall
    obtain ⟨hilt, hie⟩ := hall i (List.mem_cons_self i t)
    have hset := setAt_grid m i Cell06.obstruction hilt
    set m1 : Grid Cell06 := Grid.mk m.lines m.columns
      (m.items.set i Cell06.obstruction) with hm1
    have hwf1 : m1.Wellformed := by
      unfold Grid.Wellformed at hwf ⊢
      rw [hm1]
      simpa using hwf
    have hg1 : m1.validPt g = true := by
      rw [validPt_iff] at hg ⊢
      rw [hm1]
      exact hg
    have htermS := patrolSlowAux_isSome m1 hwf1 (4 * m1.size + 1) [] [] g Point.north
      List.nodup_nil (by intro s hs; cases hs) hg1 (by decide) (by simp)
    have hequiv := patrolEquivAux m1 hwf1 g (4 * m1.size + 1) [] []
      (List.replicate m1.size (List.replicate 4 false)) g Point.north
      (patrolInv_init m1 g) hg1 (by decide) (Or.inl rfl)
    rcases hequiv with ⟨hsn, _⟩ | ⟨P2, locs2, tbl2, b, _, hf, _⟩
    · rw [hsn] at htermS
      simp at htermS
    · have hfast : patrolFast m1 g = some (tbl2, b) := by
        rw [patrolFast_def]
        exact hf
      have hilt1 : i < m1.items.length := by
        rw [hm1]
        simpa using hilt
      have hrestore : m1.setAt i Cell06.empty = some m := by
        rw [setAt_grid m1 i Cell06.empty hilt1]
        have : (m.items.set i Cell06.obstruction).set i Cell06.empty = m.items :=
          list_set_restore m.items i Cell06.empty Cell06.obstruction hie
        rw [hm1]
        simp only [this]
      rw [part2FoldFast_cons m g i t m1 m (tbl2, b) hset hfast hrestore]
      rw [ih (fun q hq => hall q (List.mem_cons_of_mem i hq))]
      rw [List.countP_cons]
      have hverdict : obstructedVerdictFast m g i = b := by
        unfold obstructedVerdictFast
        split
        · rename_i heq
          rw [hset] at heq
          cases heq
        · rename_i m1b heq
          rw [hset] at heq
          injection heq with heq
          subst heq
          split
          · rename_i heq2
            rw [hfast] at heq2
            cases heq2
          · rename_i rb heq2
            rw [hfast] at heq2
            injection heq2 with heq2
            subst heq2
            rfl
      rw [hverdict]
      cases b
      · simp
      · simp [Nat.add_comm]

theorem obstructedVerdictSlow_spec (m : Grid Cell06) (g p : Point)
    (m1 : Grid Cell06) (r : List Point × Bool)
    (hset : m.setPt p Cell06.obstruction = some m1)
    (hr : patrolSlow m1 g = some r) :
    obstructedVerdictSlow m g p = r.2 := by
  unfold obstructedVerdictSlow
  split
  · rename_i heq
    rw [hset] at heq
    cases heq
  · rename_i m1b heq
    rw [hset] at heq
    injection heq with heq
    subst heq
    split
    · rename_i heq2
      rw [hr] at heq2
      cases heq2
    · rename_i rb heq2
      rw [hr] at heq2
      injection heq2 with heq2
      subst heq2
      rfl

theorem obstructedVerdictFast_spec (m : Grid Cell06) (g : Point) (i : Nat)
    (m1 : Grid Cell06) (r : List (List Bool) × Bool)
    (hset : m.setAt i Cell06.obstruction = some m1)
    (hr : patrolFast m1 g = some r) :
    obstructedVerdictFast m g i = r.2 := by
  unfold obstructedVerdictFast
  split
  · rename_i heq
    rw [hset] at heq
    cases heq
  · rename_i m1b heq
    rw [hset] at heq
    injection heq with heq
    subst heq
    split
    · rename_i heq2
      rw [hr] at heq2
      cases heq2
    · rename_i rb heq2
      rw [hr] at heq2
      injection heq2 with heq2
      subst heq2
      rfl

/-- One obstruction trial returns the same verdict through the slow
and the fast patrol, at corresponding position and flat index. -/
theorem obstructedVerdict_eq (m : Grid Cell06) (hwf : m.Wellformed) (g : Point)
    (hg : m.validPt g = true) (p : Point) (hp : m.validPt p = true) :
    obstructedVerdictFast m g (m.idxPt p) = obstructedVerdictSlow m g p := by
  have hidx : m.idxPt p < m.items.length := by
    rw [hwf]
    exact idxPt_lt_size m p hp
  have hsetS := setPt_grid m p Cell06.obstruction hp
  have hsetF := setAt_grid m (m.idxPt p) Cell06.obstruction hidx
  set M1 : Grid Cell06 := Grid.mk m.lines m.columns
    (m.items.set (m.idxPt p) Cell06.obstruction) with hM1
  have hwf1 : M1.Wellformed := by
    unfold Grid.Wellformed at hwf ⊢
    rw [hM1]
    simpa using hwf
  have hg1 : M1.validPt g = true := by
    rw [validPt_iff] at hg ⊢
    rw [hM1]
    exact hg
  obtain ⟨_, locs1, b1, tbl1, hs1, hf1, _, _, _⟩ := patrolBoth M1 hwf1 g hg1
  rw [obstructedVerdictSlow_spec m g p M1 (locs1, b1) hsetS hs1,
    obstructedVerdictFast_spec m g (m.idxPt p) M1 (tbl1, b1) hsetF hf1]

theorem mem_fastCandidates (tbl : List (List Bool)) (gIdx i : Nat) :
    i ∈ fastCandidates tbl gIdx
      ↔ i < tbl.length ∧ i ≠ gIdx ∧ (tbl.getD i []).any id = true := by
  unfold fastCandidates
  rw [List.mem_filter, List.mem_range]
  simp only [Bool.and_eq_true, decide_eq_true_eq]

theorem fastCandidates_nodup (tbl : List (List Bool)) (gIdx : Nat) :
    (fastCandidates tbl gIdx).Nodup :=
  (List.nodup_range _).filter _

/-- Equality of the two part-2 counts, through the index/position
bijection on the common candidate set and the per-trial verdict
agreement. -/
theorem part2_counts_eq (m : Grid Cell06) (hwf : m.Wellformed) (g : Point)
    (hg : m.validPt g = true) (P2 : List (Point × Point)) (locs : List Point)
    (tbl : List (List Bool)) (inv : PatrolInv m g P2 locs tbl) :
    (locs.filter (fun p => decide (p ≠ g))).countP
        (fun p => obstructedVerdictSlow m g p)
      = (fastCandidates tbl (m.idxPt g)).countP
          (fun i => obstructedVerdictFast m g i) := by
  classical
  have hlocvalid : ∀ p ∈ locs, m.validPt p = true := by
    intro p hp
    obtain ⟨dd, hdd⟩ := (inv.locIff p).mp hp
    exact (inv.pvalid _ hdd).1
  rw [List.countP_eq_length_filter, List.countP_eq_length_filter]
  have hLnd : ((locs.filter (fun p => decide (p ≠ g))).filter
      (fun p => obstructedVerdictSlow m g p)).Nodup :=
    (inv.locNd.filter _).filter _
  have hRnd : ((fastCandidates tbl (m.idxPt g)).filter
      (fun i => obstructedVerdictFast m g i)).Nodup :=
    (fastCandidates_nodup tbl (m.idxPt g)).filter _
  rw [← List.toFinset_card_of_nodup hLnd, ← List.toFinset_card_of_nodup hRnd]
  have himg : ((locs.filter (fun p => decide (p ≠ g))).filter
        (fun p => obstructedVerdictSlow m g p)).toFinset.image (fun p => m.idxPt p)
      = ((fastCandidates tbl (m.idxPt g)).filter
        (fun i => obstructedVerdictFast m g i)).toFinset := by
    ext i
    rw [Finset.mem_image]
    constructor
    · rintro ⟨p, hp, rfl⟩
      rw [List.mem_toFinset, List.mem_filter, List.mem_filter] at hp
      obtain ⟨⟨hploc, hpne⟩, hpsv⟩ := hp
      rw [decide_eq_true_eq] at hpne
      have hpv := hlocvalid p hploc
      have hidxsz : m.idxPt p < m.size := idxPt_lt_size m p hpv
      have hidxlt : m.idxPt p < tbl.length := by
        rw [inv.tlen]
        exact hidxsz
      rw [List.mem_toFinset, List.mem_filter, mem_fastCandidates]
      refine ⟨⟨hidxlt, ?_, ?_⟩, ?_⟩
      · intro h
        exact hpne (idxPt_inj m p g hpv hg h)
      · obtain ⟨row, hrow⟩ : ∃ row, tbl.get? (m.idxPt p) = some row :=
          ⟨tbl.get ⟨m.idxPt p, hidxlt⟩, List.get?_eq_get hidxlt⟩
        have hgetd : tbl.getD (m.idxPt p) [] = row := by
          unfold List.getD
          rw [hrow]
          rfl
        rw [hgetd]
        apply (row_flag_iff_visited m g P2 locs tbl inv _ row hrow hidxsz).mpr
        rw [pointOfIndex_idxPt m p hpv]
        exact hploc
      · rw [obstructedVerdict_eq m hwf g hg p hpv]
        exact hpsv
    · intro hi
      rw [List.mem_toFinset, List.mem_filter, mem_fastCandidates] at hi
      obtain ⟨⟨hilt, hine, hany⟩, hifv⟩ := hi
      have hisz : i < m.size := by
        rw [← inv.tlen]
        exact hilt
      obtain ⟨row, hrow⟩ : ∃ row, tbl.get? i = some row :=
        ⟨tbl.get ⟨i, hilt⟩, List.get?_eq_get hilt⟩
      have hgetd : tbl.getD i [] = row := by
        unfold List.getD
        rw [hrow]
        rfl
      rw [hgetd] at hany
      have hploc : pointOfIndex m i ∈ locs :=
        (row_flag_iff_visited m g P2 locs tbl inv i row hrow hisz).mp hany
      have hpv : m.validPt (pointOfIndex m i) = true := pointOfIndex_valid m i hisz
      have hpi : m.idxPt (pointOfIndex m i) = i := idxPt_pointOfIndex m i hisz
      refine ⟨pointOfIndex m i, ?_, hpi⟩
      rw [List.mem_toFinset, List.mem_filter, List.mem_filter]
      refine ⟨⟨hploc, ?_⟩, ?_⟩
      · rw [decide_eq_true_eq]
        intro h
        apply hine
        rw [← hpi, h]
      · rw [← obstructedVerdict_eq m hwf g hg _ hpv, hpi]
        exact hifv
  calc ((locs.filter (fun p => decide (p ≠ g))).filter
        (fun p => obstructedVerdictSlow m g p)).toFinset.card
      = (((locs.filter (fun p => decide (p ≠ g))).filter
        (fun p => obstructedVerdictSlow m g p)).toFinset.image
          (fun p => m.idxPt p)).card := by
        rw [Finset.card_image_of_injOn]
        intro p hp q hq h
        rw [Finset.mem_coe, List.mem_toFinset, List.mem_filter, List.mem_filter] at hp hq
        exact idxPt_inj m p q (hlocvalid p hp.1.1) (hlocvalid q hq.1.1) h
    _ = ((fastCandidates tbl (m.idxPt g)).filter
        (fun i => obstructedVerdictFast m g i)).toFinset.card := by rw [himg]

/-- Claim C4: for a well-formed map and a valid start, both patrol
implementations return a result when given `4 * lines * columns` ticks
plus the final check; if the deterministic transition function revisits
a previously seen `(position, heading)` pair the verdict is the loop
verdict, if the agent instead steps off the grid the verdict is the
non-loop verdict, and the two termination modes are distinguishable as
the boolean in the returned result. -/
theorem patrol_loop_detection (m : Grid Cell06) (hwf : m.Wellformed)
    (guard : Point) (hg : m.validPt guard = true) :
    ∃ locs b tbl,
      patrolSlowAux m (4 * m.lines * m.columns + 1) [] [] guard Point.north
          = some (locs, b)
      ∧ patrolFastAux m (4 * m.lines * m.columns + 1)
          (List.replicate m.size (List.replicate 4 false)) guard Point.north
          = some (tbl, b)
      ∧ ((∃ i j s, i < j ∧ patrolTrace m (guard, Point.north) i = some s
          ∧ patrolTrace m (guard, Point.north) j = some s) → b = true)
      ∧ ((∃ k s, patrolTrace m (guard, Point.north) k = some s
          ∧ patrolStep m s = none) → b = false) := by
  obtain ⟨P2, locs, b, tbl, hslow, hfast, _, hrep, hexit⟩ := patrolBoth m hwf guard hg
  rw [patrolSlow_def] at hslow
  rw [patrolFast_def] at hfast
  have hb : 4 * m.lines * m.columns + 1 = 4 * m.size + 1 := by
    unfold Grid.size
    ring
  rw [hb]
  exact ⟨locs, b, tbl, hslow, hfast, hrep, hexit⟩

/-- Witness for claim C4 on the concrete one-cell map. -/
theorem patrol_loop_detection_witness :
    ∃ locs b tbl,
      patrolSlowAux patrolMap1 (4 * patrolMap1.lines * patrolMap1.columns + 1) [] []
          (0, 0) Point.north = some (locs, b)
      ∧ patrolFastAux patrolMap1 (4 * patrolMap1.lines * patrolMap1.columns + 1)
          (List.replicate patrolMap1.size (List.replicate 4 false)) (0, 0) Point.north
          = some (tbl, b)
      ∧ ((∃ i j s, i < j ∧ patrolTrace patrolMap1 ((0, 0), Point.north) i = some s
          ∧ patrolTrace patrolMap1 ((0, 0), Point.north) j = some s) → b = true)
      ∧ ((∃ k s, patrolTrace patrolMap1 ((0, 0), Point.north) k = some s
          ∧ patrolStep patrolMap1 s = none) → b = false) :=
  patrol_loop_detection patrolMap1 (by decide) (0, 0) (by decide)

/-- Claim C10: on a well-formed map with a valid start, the slow and
fast patrol implementations agree: same loop verdict, the cells with at
least one direction flag set are exactly the distinct visited
positions, and the part-1 and part-2 counts coincide. -/
theorem slow_fast_patrol_agree (m : Grid Cell06) (hwf : m.Wellformed)
    (guard : Point) (hg : m.validPt guard = true) :
    ∃ locs b tbl,
      patrolSlow m guard = some (locs, b)
      ∧ patrolFast m guard = some (tbl, b)
      ∧ (∀ i, i < m.size → ∀ row, tbl.get? i = some row →
          (row.any id = true ↔ pointOfIndex m i ∈ locs))
      ∧ slowPart1 m guard = fastPart1 m guard
      ∧ slowPart2 m guard = fastPart2 m guard := by
  obtain ⟨P2, locs, b, tbl, hslow, hfast, inv, _, _⟩ := patrolBoth m hwf guard hg
  have hlocvalid : ∀ p ∈ locs, m.validPt p = true := by
    intro p hp
    obtain ⟨dd, hdd⟩ := (inv.locIff p).mp hp
    exact (inv.pvalid _ hdd).1
  refine ⟨locs, b, tbl, hslow, hfast, ?_, ?_, ?_⟩
  · intro i hi row hrow
    exact row_flag_iff_visited m guard P2 locs tbl inv i row hrow hi
  · unfold slowPart1 fastPart1
    rw [hslow, hfast]
    show some locs.length = some ((tbl.filter (fun loc => loc.any id)).length)
    rw [flag_count_eq m guard P2 locs tbl inv]
  · unfold slowPart2 fastPart2
    rw [hslow, hfast, if_pos hg]
    show part2FoldSlow m guard (locs.filter (fun p => decide (p ≠ guard)))
      = part2FoldFast m guard (fastCandidates tbl (m.idxPt guard))
    have hslowcand : ∀ p ∈ locs.filter (fun p => decide (p ≠ guard)),
        m.validPt p = true ∧ m.getPt p = some Cell06.empty := by
      intro p hp
      rw [List.mem_filter, decide_eq_true_eq] at hp
      obtain ⟨hploc, hpne⟩ := hp
      refine ⟨hlocvalid p hploc, ?_⟩
      rcases inv.locEmpty p hploc with rfl | he
      · exact absurd rfl hpne
      · exact he
    have hfastcand : ∀ i ∈ fastCandidates tbl (m.idxPt guard),
        i < m.items.length ∧ m.items.get? i = some Cell06.empty := by
      intro i hi
      rw [mem_fastCandidates] at hi
      obtain ⟨hilt, hine, hany⟩ := hi
      have hisz : i < m.size := by
        rw [← inv.tlen]
        exact hilt
      obtain ⟨row, hrow⟩ : ∃ row, tbl.get? i = some row :=
        ⟨tbl.get ⟨i, hilt⟩, List.get?_eq_get hilt⟩
      have hgetd : tbl.getD i [] = row := by
        unfold List.getD
        rw [hrow]
        rfl
      rw [hgetd] at hany
      have hploc : pointOfIndex m i ∈ locs :=
        (row_flag_iff_visited m guard P2 locs tbl inv i row hrow hisz).mp hany
      have hpv : m.validPt (pointOfIndex m i) = true := pointOfIndex_valid m i hisz
      have hpi : m.idxPt (pointOfIndex m i) = i := idxPt_pointOfIndex m i hisz
      have hpne : pointOfIndex m i ≠ guard := by
        intro h
        apply hine
        rw [← hpi, h]
      have hempty : m.getPt (pointOfIndex m i) = some Cell06.empty := by
        rcases inv.locEmpty _ hploc with h | h
        · exact absurd h hpne
        · exact h
      have hlen : i < m.items.length := by
        rw [hwf]
        exact hisz
      refine ⟨hlen, ?_⟩
      unfold Grid.getPt at hempty
      rw [hpv] at hempty
      simp only [if_true] at hempty
      rw [← hpi]
      exact hempty
    rw [part2FoldSlow_count m hwf guard hg _ hslowcand]
    rw [part2FoldFast_count m hwf guard hg _ hfastcand]
    rw [part2_counts_eq m hwf guard hg P2 locs tbl inv]

/-- Witness for claim C10 on the concrete one-cell map. -/
theorem slow_fast_patrol_agree_witness :
    ∃ locs b tbl,
      patrolSlow patrolMap1 (0, 0) = some (locs, b)
      ∧ patrolFast patrolMap1 (0, 0) = some (tbl, b)
      ∧ (∀ i, i < patrolMap1.size → ∀ row, tbl.get? i = some row →
          (row.any id = true ↔ pointOfIndex patrolMap1 i ∈ locs))
      ∧ slowPart1 patrolMap1 (0, 0) = fastPart1 patrolMap1 (0, 0)
      ∧ slowPart2 patrolMap1 (0, 0) = fastPart2 patrolMap1 (0, 0) :=
  slow_fast_patrol_agree patrolMap1 (by decide) (0, 0) (by decide)

/-! ## Day 16 fixtures -/

/-- Claim C5 counterexample: the two day16 fixtures are 15 by 15 and
17 by 17 grids, not 8 by 8 as the spec describes them. -/
theorem day16_fixture_not_8x8 :
    (Grid.new fixture16a).map (fun g => (g.lines, g.columns)) = some (15, 15)
      ∧ (Grid.new fixture16b).map (fun g => (g.lines, g.columns)) = some (17, 17)
      ∧ (15 : Nat) ≠ 8 ∧ (17 : Nat) ≠ 8 := by
  refine ⟨by rfl, by rfl, by decide, by decide⟩


set_option maxRecDepth 1000000 in
theorem prepare16_fixa :
    prepare16 fixture16a = some (maze16a, start16a, end16a) := by rfl

set_option maxRecDepth 1000000 in
set_option maxHeartbeats 8000000 in
theorem computeLD_fixa :
    computeLeastDistances maze16a start16a end16a = some (ld16a, 7036) := by rfl

set_option maxRecDepth 1000000 in
theorem prepare16_fixb :
    prepare16 fixture16b = some (maze16b, start16b, end16b) := by rfl

set_option maxRecDepth 1000000 in
set_option maxHeartbeats 8000000 in
theorem computeLD_fixb :
    computeLeastDistances maze16b start16b end16b = some (ld16b, 11048) := by rfl

set_option maxRecDepth 1000000 in
theorem part1_16a : solve16Part1 fixture16a = some 7036 := by
  unfold solve16Part1
  rw [prepare16_fixa]
  show (computeLeastDistances maze16a start16a end16a).map (fun r => r.2) = some 7036
  rw [computeLD_fixa]
  rfl

set_option maxRecDepth 1000000 in
set_option maxHeartbeats 8000000 in
theorem part2_16a : solve16Part2 fixture16a = some 45 := by
  unfold solve16Part2
  rw [prepare16_fixa]
  show (computeLeastDistances maze16a start16a end16a).bind (fun r =>
      ((Point.north :: Point.east :: Point.south :: Point.west :: []).foldlM
        (fun marked dir => backwardDfs r.1 start16a fuel16 marked r.2 end16a dir)
        (∅ : Finset Point)).map (fun s => s.card)) = some 45
  rw [computeLD_fixa]
  rfl

set_option maxRecDepth 1000000 in
theorem part1_16b : solve16Part1 fixture16b = some 11048 := by
  unfold solve16Part1
  rw [prepare16_fixb]
  show (computeLeastDistances maze16b start16b end16b).map (fun r => r.2) = some 11048
  rw [computeLD_fixb]
  rfl

set_option maxRecDepth 1000000 in
set_option maxHeartbeats 8000000 in
theorem part2_16b : solve16Part2 fixture16b = some 64 := by
  unfold solve16Part2
  rw [prepare16_fixb]
  show (computeLeastDistances maze16b start16b end16b).bind (fun r =>
      ((Point.north :: Point.east :: Point.south :: Point.west :: []).foldlM
        (fun marked dir => backwardDfs r.1 start16b fuel16 marked r.2 end16b dir)
        (∅ : Finset Point)).map (fun s => s.card)) = some 64
  rw [computeLD_fixb]
  rfl

set_option maxRecDepth 1000000 in
set_option maxHeartbeats 8000000 in
theorem part2SpecEq_16a : solve16Part2SpecEq fixture16a = some 12 := by
  unfold solve16Part2SpecEq
  rw [prepare16_fixa]
  show (computeLeastDistances maze16a start16a end16a).bind (fun r =>
      ((Point.north :: Point.east :: Point.south :: Point.west :: []).foldlM
        (fun marked dir => backwardDfsSpecEq r.1 start16a fuel16 marked r.2 end16a dir)
        (∅ : Finset Point)).map (fun s => s.card)) = some 12
  rw [computeLD_fixa]
  rfl

/-- Claim C5 amended: on the two AoC-style maze fixtures, 15 by 15 and
17 by 17 (not 8 by 8), with move cost 1 and turn cost 1000, the
turn-weighted search returns minimum total cost 7036 and 11048, and
the all-optimal-path cell counts are 45 and 64. -/
theorem day16_fixture_results :
    solve16Part1 fixture16a = some 7036
      ∧ solve16Part1 fixture16b = some 11048
      ∧ solve16Part2 fixture16a = some 45
      ∧ solve16Part2 fixture16b = some 64 :=
  ⟨part1_16a, part1_16b, part2_16a, part2_16b⟩

/-! ## Step equations and acceptance analysis of the backward traversal -/

theorem backwardAux_nil (m : Grid Cell16) (start : Point) (fuel : Nat)
    (marked : Finset Point) (b : Nat) (cur : Point) :
    backwardAux m start (fuel + 1) marked b cur [] = some marked := rfl

theorem backwardAux_skip (m : Grid Cell16) (start : Point) (fuel : Nat)
    (marked : Finset Point) (b : Nat) (cur t : Point) (c : Nat)
    (rest : List (Point × Nat))
    (hget : ∀ f, m.getPt (cur.addPt t) ≠ some (Cell16.reached f)) :
    backwardAux m start (fuel + 1) marked b cur ((t, c) :: rest)
      = backwardAux m start fuel marked b cur rest := by
  rw [backwardAux]
  split
  · rename_i f heq
    exact absurd heq (hget f)
  · rfl

theorem backwardAux_reject (m : Grid Cell16) (start : Point) (fuel : Nat)
    (marked : Finset Point) (b : Nat) (cur t : Point) (c f : Nat)
    (rest : List (Point × Nat))
    (hget : m.getPt (cur.addPt t) = some (Cell16.reached f))
    (hrej : ¬ f ≤ u64sub b c) :
    backwardAux m start (fuel + 1) marked b cur ((t, c) :: rest)
      = backwardAux m start fuel marked b cur rest := by
  rw [backwardAux]
  split
  · rename_i f2 heq
    rw [hget] at heq
    injection heq with heq
    injection heq with heq
    subst heq
    rw [if_neg hrej]
  · rename_i heq
    exact (heq f hget).elim

theorem backwardAux_accept_start (m : Grid Cell16) (start : Point) (fuel : Nat)
    (marked : Finset Point) (b : Nat) (cur t : Point) (c f : Nat)
    (rest : List (Point × Nat))
    (hget : m.getPt (cur.addPt t) = some (Cell16.reached f))
    (hacc : f ≤ u64sub b c) (hst : cur.addPt t = start) :
    backwardAux m start (fuel + 1) marked b cur ((t, c) :: rest)
      = backwardAux m start fuel (insert (cur.addPt t) marked) b cur rest := by
  rw [backwardAux]
  split
  · rename_i f2 heq
    rw [hget] at heq
    injection heq with heq
    injection heq with heq
    subst heq
    rw [if_pos hacc, if_pos hst]
  · rename_i heq
    exact (heq f hget).elim

theorem backwardAux_accept_go (m : Grid Cell16) (start : Point) (fuel : Nat)
    (marked : Finset Point) (b : Nat) (cur t : Point) (c f : Nat)
    (rest : List (Point × Nat))
    (hget : m.getPt (cur.addPt t) = some (Cell16.reached f))
    (hacc : f ≤ u64sub b c) (hst : cur.addPt t ≠ start) :
    backwardAux m start (fuel + 1) marked b cur ((t, c) :: rest)
      = match backwardAux m start fuel (insert (cur.addPt t) marked)
          (u64sub b c) (cur.addPt t) (transitions16 t) with
        | none => none
        | some marked2 => backwardAux m start fuel marked2 b cur rest := by
  rw [backwardAux]
  split
  · rename_i f2 heq
    rw [hget] at heq
    injection heq with heq
    injection heq with heq
    subst heq
    rw [if_pos hacc, if_neg hst]
  · rename_i heq
    exact (heq f hget).elim

/-- The marked set only grows through the backward traversal. -/
theorem backwardAux_mono (m : Grid Cell16) (start : Point) :
    ∀ (fuel : Nat) (marked : Finset Point) (b : Nat) (cur : Point)
      (ts : List (Point × Nat)) (S : Finset Point),
      backwardAux m start fuel marked b cur ts = some S → marked ⊆ S := by
  intro fuel
  induction fuel with
  | zero =>
    intro marked b cur ts S h
    exact absurd h (by simp [backwardAux])
  | succ fuel ih =>
    intro marked b cur ts S h
    cases ts with
    | nil =>
      rw [backwardAux_nil] at h
      injection h with h
      subst h
      exact Finset.Subset.refl _
    | cons tc rest =>
      obtain ⟨t, c⟩ := tc
      cases hget : m.getPt (cur.addPt t) with
      | none =>
        rw [backwardAux_skip m start fuel marked b cur t c rest
          (by rw [hget]; intro f h2; cases h2)] at h
        exact ih marked b cur rest S h
      | some cell =>
        cases cell with
        | wall =>
          rw [backwardAux_skip m start fuel marked b cur t c rest
            (by rw [hget]; intro f h2; cases h2)] at h
          exact ih marked b cur rest S h
        | unreached =>
          rw [backwardAux_skip m start fuel marked b cur t c rest
            (by rw [hget]; intro f h2; cases h2)] at h
          exact ih marked b cur rest S h
        | reached f =>
          by_cases hacc : f ≤ u64sub b c
          · by_cases hst : cur.addPt t = start
            · rw [backwardAux_accept_start m start fuel marked b cur t c f rest
                hget hacc hst] at h
              exact fun x hx => ih _ b cur rest S h (Finset.mem_insert_of_mem hx)
            · rw [backwardAux_accept_go m start fuel marked b cur t c f rest
                hget hacc hst] at h
              cases hrec : backwardAux m start fuel (insert (cur.addPt t) marked)
                  (u64sub b c) (cur.addPt t) (transitions16 t) with
              | none =>
                rw [hrec] at h
                cases h
              | some marked2 =>
                rw [hrec] at h
                have h1 := ih _ _ _ _ _ hrec
                have h2 := ih _ b cur rest S h
                exact fun x hx => h2 (h1 (Finset.mem_insert_of_mem hx))
          · rw [backwardAux_reject m start fuel marked b cur t c f rest hget hacc] at h
            exact ih marked b cur rest S h

/-- Every transition accepted by the source's test (forward cost at
most `budget - cost`) leads to the predecessor being marked on a best
path. -/
theorem backwardAux_accept_marks (m : Grid Cell16) (start : Point) :
    ∀ (fuel : Nat) (marked : Finset Point) (b : Nat) (cur : Point)
      (ts : List (Point × Nat)) (S : Finset Point) (t : Point) (c f : Nat),
      backwardAux m start fuel marked b cur ts = some S →
      (t, c) ∈ ts →
      m.getPt (cur.addPt t) = some (Cell16.reached f) →
      f ≤ u64sub b c →
      cur.addPt t ∈ S := by
  intro fuel
  induction fuel with
  | zero =>
    intro marked b cur ts S t c f h
    exact absurd h (by simp [backwardAux])
  | succ fuel ih =>
    intro marked b cur ts S t c f h hmem hget hacc
    cases ts with
    | nil => cases hmem
    | cons tc rest =>
      obtain ⟨t0, c0⟩ := tc
      by_cases hhead : (t, c) = (t0, c0)
      · obtain ⟨rfl, rfl⟩ : t = t0 ∧ c = c0 := by
          constructor
          · exact congrArg Prod.fst hhead
          · exact congrArg Prod.snd hhead
        by_cases hst : cur.addPt t = start
        · rw [backwardAux_accept_start m start fuel marked b cur t c f rest
            hget hacc hst] at h
          exact backwardAux_mono m start fuel _ b cur rest S h
            (Finset.mem_insert_self _ _)
        · rw [backwardAux_accept_go m start fuel marked b cur t c f rest
            hget hacc hst] at h
          cases hrec : backwardAux m start fuel (insert (cur.addPt t) marked)
              (u64sub b c) (cur.addPt t) (transitions16 t) with
          | none =>
            rw [hrec] at h
            cases h
          | some marked2 =>
            rw [hrec] at h
            have h1 : cur.addPt t ∈ marked2 :=
              backwardAux_mono m start fuel _ _ _ _ _ hrec
                (Finset.mem_insert_self _ _)
            exact backwardAux_mono m start fuel _ b cur rest S h h1
      · have hrest : (t, c) ∈ rest := by
          rcases List.mem_cons.mp hmem with h2 | h2
          · exact absurd h2 hhead
          · exact h2
        cases hget0 : m.getPt (cur.addPt t0) with
        | none =>
          rw [backwardAux_skip m start fuel marked b cur t0 c0 rest
            (by rw [hget0]; intro f2 h2; cases h2)] at h
          exact ih marked b cur rest S t c f h hrest hget hacc
        | some cell =>
          cases cell with
          | wall =>
            rw [backwardAux_skip m start fuel marked b cur t0 c0 rest
              (by rw [hget0]; intro f2 h2; cases h2)] at h
            exact ih marked b cur rest S t c f h hrest hget hacc
          | unreached =>
            rw [backwardAux_skip m start fuel marked b cur t0 c0 rest
              (by rw [hget0]; intro f2 h2; cases h2)] at h
            exact ih marked b cur rest S t c f h hrest hget hacc
          | reached f0 =>
            by_cases hacc0 : f0 ≤ u64sub b c0
            · by_cases hst0 : cur.addPt t0 = start
              · rw [backwardAux_accept_start m start fuel marked b cur t0 c0 f0 rest
                  hget0 hacc0 hst0] at h
                exact ih _ b cur rest S t c f h hrest hget hacc
              · rw [backwardAux_accept_go m start fuel marked b cur t0 c0 f0 rest
                  hget0 hacc0 hst0] at h
                cases hrec : backwardAux m start fuel (insert (cur.addPt t0) marked)
                    (u64sub b c0) (cur.addPt t0) (transitions16 t0) with
                | none =>
                  rw [hrec] at h
                  cases h
                | some marked2 =>
                  rw [hrec] at h
                  exact ih marked2 b cur rest S t c f h hrest hget hacc
            · rw [backwardAux_reject m start fuel marked b cur t0 c0 f0 rest
                hget0 hacc0] at h
              exact ih marked b cur rest S t c f h hrest hget hacc

/-- When every transition is rejected by the source's test, the loop
skips them all and marks nothing further. -/
theorem backwardAux_all_reject (m : Grid Cell16) (start : Point)
    (marked : Finset Point) (b : Nat) (cur : Point) :
    ∀ (ts : List (Point × Nat)) (fuel : Nat),
      (∀ t c f, (t, c) ∈ ts →
        m.getPt (cur.addPt t) = some (Cell16.reached f) → u64sub b c < f) →
      backwardAux m start (ts.length + (fuel + 1)) marked b cur ts = some marked := by
  intro ts
  induction ts with
  | nil =>
    intro fuel _
    exact backwardAux_nil m start fuel marked b cur
  | cons tc rest ih =>
    intro fuel hrej
    obtain ⟨t, c⟩ := tc
    rw [show ((t, c) :: rest).length + (fuel + 1)
      = (rest.length + (fuel + 1)) + 1 by simp [List.length_cons]; omega]
    cases hget : m.getPt (cur.addPt t) with
    | none =>
      rw [backwardAux_skip m start _ marked b cur t c rest
        (by rw [hget]; intro f h2; cases h2)]
      exact ih fuel (fun t2 c2 f2 hm hg => hrej t2 c2 f2 (List.mem_cons_of_mem _ hm) hg)
    | some cell =>
      cases cell with
      | wall =>
        rw [backwardAux_skip m start _ marked b cur t c rest
          (by rw [hget]; intro f h2; cases h2)]
        exact ih fuel (fun t2 c2 f2 hm hg => hrej t2 c2 f2 (List.mem_cons_of_mem _ hm) hg)
      | unreached =>
        rw [backwardAux_skip m start _ marked b cur t c rest
          (by rw [hget]; intro f h2; cases h2)]
        exact ih fuel (fun t2 c2 f2 hm hg => hrej t2 c2 f2 (List.mem_cons_of_mem _ hm) hg)
      | reached f =>
        have hlt := hrej t c f (List.mem_cons_self _ _) hget
        rw [backwardAux_reject m start _ marked b cur t c f rest hget (by omega)]
        exact ih fuel (fun t2 c2 f2 hm hg => hrej t2 c2 f2 (List.mem_cons_of_mem _ hm) hg)

/-- Claim C2 amended: in the backward traversal, a predecessor state is
accepted (recursed into and marked on a best path) when its
forward-recorded cost is at most `budget - transition_cost` (the
source's test is a less-or-equal comparison, not an equality): every
transition passing that test marks its predecessor cell in the result,
and when every transition fails it the call marks exactly the current
cell and nothing else. -/
theorem backward_dfs_accepts_le (m : Grid Cell16) (start : Point) :
    (∀ (fuel : Nat) (marked : Finset Point) (b : Nat) (cur d : Point)
      (S : Finset Point) (t : Point) (c f : Nat),
      backwardDfs m start fuel marked b cur d = some S →
      cur ≠ start →
      (t, c) ∈ transitions16 d →
      m.getPt (cur.addPt t) = some (Cell16.reached f) →
      f ≤ u64sub b c →
      cur.addPt t ∈ S)
    ∧ (∀ (fuel : Nat) (marked : Finset Point) (b : Nat) (cur d : Point),
      cur ≠ start →
      (∀ t c f, (t, c) ∈ transitions16 d →
        m.getPt (cur.addPt t) = some (Cell16.reached f) → u64sub b c < f) →
      backwardDfs m start (fuel + 4) marked b cur d = some (insert cur marked)) := by
  constructor
  · intro fuel marked b cur d S t c f h hcur hmem hget hacc
    unfold backwardDfs at h
    rw [if_neg hcur] at h
    exact backwardAux_accept_marks m start fuel _ b cur _ S t c f h hmem hget hacc
  · intro fuel marked b cur d hcur hrej
    unfold backwardDfs
    rw [if_neg hcur]
    have hlen : (transitions16 d).length + (fuel + 1) = fuel + 4 := by
      simp [transitions16]
      omega
    rw [← hlen]
    exact backwardAux_all_reject m start (insert cur marked) b cur (transitions16 d)
      fuel hrej

/-- Witness for claim C2: on the concrete two-cell map, the accepted
predecessor (forward cost 0, at most the reduced budget 9) is marked,
and on the expensive variant every transition is rejected and only the
current cell is marked. -/
theorem backward_dfs_accepts_le_witness :
    (((0 : Int), (0 : Int)) : Point) ∈
        (insert (((0 : Int), (0 : Int)) : Point)
          (insert (((0 : Int), (1 : Int)) : Point) (∅ : Finset Point)))
      ∧ backwardDfs grid16Reject ((0 : Int), (0 : Int)) (0 + 4) ∅ 10
          ((0 : Int), (1 : Int)) Point.west
        = some (insert (((0 : Int), (1 : Int)) : Point) ∅) := by
  constructor
  · exact (backward_dfs_accepts_le grid16Counter ((0 : Int), (0 : Int))).1
      10 ∅ 10 ((0 : Int), (1 : Int)) Point.west
      (insert (((0 : Int), (0 : Int)) : Point)
        (insert (((0 : Int), (1 : Int)) : Point) (∅ : Finset Point)))
      Point.west 1 0
      (by rfl) (by decide) (by decide) (by decide) (by decide)
  · exact (backward_dfs_accepts_le grid16Reject ((0 : Int), (0 : Int))).2
      0 ∅ 10 ((0 : Int), (1 : Int)) Point.west (by decide)
      (by
        intro t c f hmem hget
        simp only [transitions16, List.mem_cons, List.not_mem_nil, or_false] at hmem
        rcases hmem with h | h | h
        · rw [Prod.mk.injEq] at h
          obtain ⟨rfl, rfl⟩ := h
          rw [show grid16Reject.getPt
            (Point.addPt ((0 : Int), (1 : Int)) Point.west)
              = some (Cell16.reached 100) from rfl] at hget
          injection hget with hget
          injection hget with hget
          subst hget
          decide
        · rw [Prod.mk.injEq] at h
          obtain ⟨rfl, rfl⟩ := h
          rw [show grid16Reject.getPt
            (Point.addPt ((0 : Int), (1 : Int)) Point.west.rotate_90_clockwise)
              = none from rfl] at hget
          cases hget
        · rw [Prod.mk.injEq] at h
          obtain ⟨rfl, rfl⟩ := h
          rw [show grid16Reject.getPt
            (Point.addPt ((0 : Int), (1 : Int)) Point.west.rotate_90_counterclockwise)
              = none from rfl] at hget
          cases hget)

set_option maxRecDepth 1000000 in
set_option maxHeartbeats 8000000 in
/-- Claim C2 counterexample: the backward traversal accepts
predecessors whose forward-recorded cost is strictly below
`budget - cost`, not only those equal to it.  On a concrete two-cell
least-distance map, the predecessor with forward cost 0 is recursed
into and marked although `budget - cost` is 9; under the claim's
exact-equality rule it is not marked.  On the first day16 fixture the
exact-equality rule would mark 12 cells where the source marks 45. -/
theorem backward_dfs_exact_equality_counterexample :
    (∃ S, backwardDfs grid16Counter ((0 : Int), (0 : Int)) 10 ∅ 10
        ((0 : Int), (1 : Int)) Point.west = some S
      ∧ (((0 : Int), (0 : Int)) : Point) ∈ S)
    ∧ grid16Counter.getPt ((0 : Int), (0 : Int)) = some (Cell16.reached 0)
    ∧ (0 : Nat) ≠ u64sub 10 1
    ∧ (∃ S2, backwardDfsSpecEq grid16Counter ((0 : Int), (0 : Int)) 10 ∅ 10
        ((0 : Int), (1 : Int)) Point.west = some S2
      ∧ (((0 : Int), (0 : Int)) : Point) ∉ S2)
    ∧ solve16Part2 fixture16a = some 45
    ∧ solve16Part2SpecEq fixture16a = some 12 := by
  refine ⟨⟨insert (((0 : Int), (0 : Int)) : Point)
      (insert (((0 : Int), (1 : Int)) : Point) ∅), by rfl,
      Finset.mem_insert_self _ _⟩,
    by rfl, by decide,
    ⟨insert (((0 : Int), (1 : Int)) : Point) ∅, by rfl, ?_⟩,
    part2_16a, part2SpecEq_16a⟩
  rw [Finset.mem_insert]
  rintro (h | h)
  · exact absurd h (by decide)
  · exact absurd h (Finset.not_mem_empty _)

/-- Witness for claim C8 at a concrete grid: three lines, four columns. -/
theorem index_position_bijection_witness :
    (∀ i : Nat, i < 3 * 4 →
        (Grid.mk 3 4 (List.replicate 12 'x')).unchecked_index
            ((Grid.mk 3 4 (List.replicate 12 'x')).unchecked_position i) = i)
      ∧ (∀ p : Position, (Grid.mk 3 4 (List.replicate 12 'x')).valid_position p = true →
        (Grid.mk 3 4 (List.replicate 12 'x')).unchecked_position
            ((Grid.mk 3 4 (List.replicate 12 'x')).unchecked_index p) = p) :=
  index_position_bijection (Grid.mk 3 4 (List.replicate 12 'x')) (by decide)

set_option maxRecDepth 1000000 in
set_option maxHeartbeats 8000000 in
/-- C6: the region partition with perimeter and side pricing reproduces
the fixed fixtures: the 10 by 10 mixed-letter grid yields 1930 under
area times perimeter pricing and 1206 under area times sides pricing;
the 4 by 4 grid AAAA/BBCD/BBCC/EEEC yields 80; the nested-square grid
yields 236; the diagonal-blobs grid yields 368. -/
theorem day12_fixture_results :
    solve12Part1 fixture12a = some 1930
      ∧ solve12Part2 fixture12a = some 1206
      ∧ solve12Part2 fixture12b = some 80
      ∧ solve12Part2 fixture12c = some 236
      ∧ solve12Part2 fixture12d = some 368 :=
  ⟨rfl, rfl, rfl, rfl, rfl⟩

end AoC
